import Mathlib

/-!
Verification development for the rlox tree-walking Lox interpreter
(scanner, parser, evaluator).  The Rust sources are shallowly embedded:
structs become structures, enums become inductives, methods become
functions, in-place mutation becomes explicit state passing, `panic!`,
`unreachable!` and failing `unwrap` become a distinguished panic outcome,
and the unbounded `while`/`loop` constructs take an explicit fuel
parameter with a distinguished out-of-fuel outcome (so that running out
of fuel is never confused with normal termination, an error, or a panic).

IEEE-754 doubles are modelled by an inductive with exact rational finite
values plus signed infinities and a NaN; rounding is not modelled since
no verified property depends on it, while the NaN/infinity behaviour of
`==`, `+`, `-`, `*`, `/` and the comparisons follows IEEE-754.
-/

namespace RLox

/-- Single quote character, used to build diagnostic message strings. -/
def sq : String := String.mk [Char.ofNat 39]

/-- Wrap a string in single quotes (Rust format strings such as
"Undefined variable '{}'." are built with this helper). -/
def quoted (s : String) : String := sq ++ s ++ sq

/-! ## Model of f64 -/

/-- Model of an IEEE-754 double: exact rational finite values, the two
infinities (the Bool is true for the positive one) and NaN.  Negative
zero is identified with zero and rounding is exact; no theorem below
depends on either aspect. -/
inductive F64 where
  | num : ℚ → F64
  | inf : Bool → F64
  | nan : F64
deriving DecidableEq

/-- IEEE-754 equality on doubles: NaN compares unequal to everything,
including itself; infinities compare by sign; finite values compare as
numbers.  This is the behaviour of Rust f64 == used by the derived
PartialEq instances in the source. -/
def F64.feq : F64 → F64 → Bool
  | .num a, .num b => a == b
  | .inf s, .inf t => s == t
  | _, _ => false

/-- IEEE-754 addition on the modelled doubles. -/
def F64.fadd : F64 → F64 → F64
  | .nan, _ => .nan
  | _, .nan => .nan
  | .num a, .num b => .num (a + b)
  | .inf s, .inf t => if s == t then .inf s else .nan
  | .inf s, .num _ => .inf s
  | .num _, .inf t => .inf t

/-- IEEE-754 subtraction on the modelled doubles. -/
def F64.fsub : F64 → F64 → F64
  | .nan, _ => .nan
  | _, .nan => .nan
  | .num a, .num b => .num (a - b)
  | .inf s, .inf t => if s == t then .nan else .inf s
  | .inf s, .num _ => .inf s
  | .num _, .inf t => .inf (!t)

/-- IEEE-754 multiplication on the modelled doubles. -/
def F64.fmul : F64 → F64 → F64
  | .nan, _ => .nan
  | _, .nan => .nan
  | .num a, .num b => .num (a * b)
  | .inf s, .inf t => .inf (s == t)
  | .inf s, .num b => if b = 0 then .nan else .inf (s == decide (0 < b))
  | .num a, .inf t => if a = 0 then .nan else .inf (t == decide (0 < a))

/-- IEEE-754 division on the modelled doubles; in particular 0/0 is NaN
and x/0 for finite nonzero x is a signed infinity. -/
def F64.fdiv : F64 → F64 → F64
  | .nan, _ => .nan
  | _, .nan => .nan
  | .num a, .num b =>
      if b = 0 then (if a = 0 then .nan else .inf (decide (0 < a)))
      else .num (a / b)
  | .inf s, .num b => if b = 0 then .inf s else .inf (s == decide (0 < b))
  | .num _, .inf _ => .num 0
  | .inf _, .inf _ => .nan

/-- IEEE-754 strict less-than: false whenever NaN is involved. -/
def F64.flt : F64 → F64 → Bool
  | .num a, .num b => a < b
  | .num _, .inf t => t
  | .inf s, .num _ => !s
  | .inf s, .inf t => !s && t
  | _, _ => false

/-- IEEE-754 less-or-equal: false whenever NaN is involved. -/
def F64.fle : F64 → F64 → Bool
  | .num a, .num b => a ≤ b
  | .num _, .inf t => t
  | .inf s, .num _ => !s
  | .inf s, .inf t => s == t || (!s && t)
  | _, _ => false

/-- IEEE-754 greater-than. -/
def F64.fgt (a b : F64) : Bool := F64.flt b a

/-- IEEE-754 greater-or-equal. -/
def F64.fge (a b : F64) : Bool := F64.fle b a

/-- Negation of a modelled double. -/
def F64.fneg : F64 → F64
  | .num a => .num (-a)
  | .inf s => .inf (!s)
  | .nan => .nan

/-- Display form of a double (model of the Rust default f64 formatter;
no theorem depends on the exact text). -/
def F64.toDisplay : F64 → String
  | .num a => if a.den = 1 then toString a.num else toString a.num ++ "/" ++ toString a.den
  | .inf s => if s then "inf" else "-inf"
  | .nan => "NaN"

/-! ## Tokens (scanner.rs) -/

/-- TokenType from scanner.rs, one constructor per Rust variant; the
String and Number variants carry their payloads. -/
inductive TokenType where
  | leftParen | rightParen | leftBrace | rightBrace | comma | dot
  | minus | plus | semicolon | slash | star
  | bang | bangEqual | equal | equalEqual
  | greater | greaterEqual | less | lessEqual
  | identifier
  | string : String → TokenType
  | number : F64 → TokenType
  | and | class_ | else_ | false_ | fun_ | for_ | if_ | nil | or
  | print | return_ | super_ | this_ | true_ | var | while_
  | eof
deriving DecidableEq

/-- Derived PartialEq on TokenType as Rust generates it: payload
comparison for String is string equality and for Number is f64 equality
(so NaN payloads compare unequal); all other variants compare by tag. -/
def TokenType.rustEq : TokenType → TokenType → Bool
  | .string a, .string b => a == b
  | .number a, .number b => a.feq b
  | a, b => a == b

/-- Token from scanner.rs. -/
structure Token where
  token_type : TokenType
  lexeme : String
  line : Int
deriving DecidableEq

/-! ## Runtime values and AST (ast.rs) -/

/-- Kinds of callable stored behind the shared handle; the interpreter
only ever creates the clock built-in. -/
inductive CallableKind where
  | clock
deriving DecidableEq

/-- Literal from ast.rs: the runtime value sum. -/
inductive Literal where
  | callable : CallableKind → Literal
  | string : String → Literal
  | number : F64 → Literal
  | bool : Bool → Literal
  | nil
deriving DecidableEq

/-- PartialEq impl for Literal from ast.rs: structural per variant with
f64 equality on numbers; every cross-variant pair, and any pair
involving a Callable, compares false. -/
def Literal.rustEq : Literal → Literal → Bool
  | .string a, .string b => a == b
  | .number a, .number b => a.feq b
  | .bool a, .bool b => a == b
  | .nil, .nil => true
  | _, _ => false

/-- Expr from ast.rs.  Field order follows the Rust structs:
binary is left/operator/right, call is callee/paren/arguments,
unary is operator/right, variable carries its name token and
assign is name/value. -/
inductive Expr where
  | binary : Expr → Token → Expr → Expr
  | call : Expr → Token → List Expr → Expr
  | grouping : Expr → Expr
  | literal : Literal → Expr
  | logical : Expr → Token → Expr → Expr
  | unary : Token → Expr → Expr
  | variable : Token → Expr
  | assign : Token → Expr → Expr

/-- Stmt from ast.rs.  ifStmt is condition/then/else, var is
name/initializer, whileStmt is condition/body. -/
inductive Stmt where
  | expression : Expr → Stmt
  | ifStmt : Expr → Stmt → Option Stmt → Stmt
  | print : Expr → Stmt
  | var : Token → Option Expr → Stmt
  | whileStmt : Expr → Stmt → Stmt
  | block : List Stmt → Stmt

/-! ## Environment (interpreter.rs) -/

/-- RuntimeError from interpreter.rs: a token and a message. -/
structure RuntimeError where
  token : Token
  message : String
deriving DecidableEq

/-- One scope of the environment: a model of HashMap String Literal as
an association list (insert replaces the binding when the key is
present). -/
abbrev Scope := List (String × Literal)

/-- HashMap contains_key. -/
def Scope.containsKey (s : Scope) (n : String) : Bool :=
  s.any (fun p => p.1 == n)

/-- HashMap get, cloned. -/
def Scope.getVal : Scope → String → Option Literal
  | [], _ => none
  | (m, w) :: rest, n => if m == n then some w else Scope.getVal rest n

/-- HashMap insert: replace the binding if the key is present, otherwise
add it. -/
def Scope.insertKV : Scope → String → Literal → Scope
  | [], n, v => [(n, v)]
  | (m, w) :: rest, n, v =>
      if m == n then (m, v) :: rest else (m, w) :: Scope.insertKV rest n v

/-- Environment from interpreter.rs.  The Rust code keeps a Vec of
scopes with the innermost scope last and iterates with rev(); here the
list is kept with the innermost scope first, so push is cons, pop drops
the head, last_mut is the head, and iter().rev() is plain traversal. -/
structure Environment where
  scopes : List Scope
deriving DecidableEq

/-- Environment::push. -/
def Environment.push (e : Environment) : Environment :=
  ⟨[] :: e.scopes⟩

/-- Environment::pop (Vec::pop on the empty stack is a no-op, as in the
source). -/
def Environment.pop (e : Environment) : Environment :=
  ⟨e.scopes.tail⟩

/-- Environment::define: insert into the innermost scope.  The source
unwraps last_mut, which panics on an empty scope stack; that case is
none here. -/
def Environment.define (e : Environment) (name : String) (value : Literal) : Option Environment :=
  match e.scopes with
  | [] => none
  | s :: rest => some ⟨s.insertKV name value :: rest⟩

/-- Environment::get: walk the scopes innermost first and return the
first binding found, else an undefined-variable error. -/
def Environment.get (e : Environment) (name : Token) : Except RuntimeError Literal :=
  go e.scopes
where
  /-- Walk the scope list innermost first. -/
  go : List Scope → Except RuntimeError Literal
  | [] => .error ⟨name, "Undefined variable " ++ quoted name.lexeme ++ "."⟩
  | s :: rest =>
    match s.getVal name.lexeme with
    | some v => .ok v
    | none => go rest

/-- Loop body of Environment::assign: find the innermost scope already
containing the name and replace the binding there; none when no scope
contains it. -/
def assignScopes : List Scope → String → Literal → Option (List Scope)
  | [], _, _ => none
  | s :: rest, n, v =>
      if s.containsKey n then some (s.insertKV n v :: rest)
      else (assignScopes rest n v).map (fun l => s :: l)

/-- Environment::assign: write into the innermost scope that already
contains the name, else fail with an undefined-variable error (the
environment is returned unchanged only through the error branch never
producing a new one). -/
def Environment.assign (e : Environment) (name : Token) (value : Literal) :
    Except RuntimeError Environment :=
  match assignScopes e.scopes name.lexeme value with
  | some l => .ok ⟨l⟩
  | none => .error ⟨name, "Undefined variable " ++ quoted name.lexeme ++ "."⟩

/-! ## Interpreter (interpreter.rs) -/

/-- Outcome of an interpreter step: a value, a runtime error, a Rust
panic (panic!, unreachable!, or a failing unwrap), or fuel exhaustion of
the embedding (an artifact that is never identified with the other
three). -/
inductive Res (α : Type) where
  | ok : α → Res α
  | err : RuntimeError → Res α
  | panic : Res α
  | nofuel : Res α
deriving DecidableEq

/-- Interpreter state: the environment plus the lines written to stdout
by println, and the value the clock built-in reads from the host (kept
constant; no theorem depends on it). -/
structure InterpState where
  environment : Environment
  output : List String
  clockNow : F64
deriving DecidableEq

/-- Interpreter::is_truthy. -/
def isTruthy : Literal → Bool
  | .bool b => b
  | .nil => false
  | _ => true

/-- Interpreter::cast_to_float (the message text, including its typo, is
the source's). -/
def castToFloat (l : Literal) (operator : Token) : Except RuntimeError F64 :=
  match l with
  | .number n => .ok n
  | _ => .error ⟨operator, "Operand must be a numbers"⟩

/-- Interpreter::is_equal. -/
def isEqual (l r : Literal) : Bool := l.rustEq r

/-- Interpreter::stringify; none models the panic! on Callable. -/
def stringify : Literal → Option String
  | .nil => some "nil"
  | .number n => some n.toDisplay
  | .string v => some v
  | .bool b => some (if b then "true" else "false")
  | .callable _ => none

/-- Callable::arity for the only callable, Clock. -/
def CallableKind.arity : CallableKind → Nat
  | .clock => 0

/-- Callable::call for Clock: returns the wall-clock number held in the
state. -/
def callCallable : CallableKind → List Literal → InterpState → Res Literal × InterpState
  | .clock, _, s => (.ok (.number s.clockNow), s)

/-- Operator dispatch of Interpreter::visit_binary after both operands
have been evaluated.  The casts happen left to right exactly as the ?
operators sequence them, the + case first matches two strings and
otherwise casts both sides, and any other token type is the
unreachable! arm. -/
def evalBinaryOp (op : Token) (l r : Literal) : Res Literal :=
  match op.token_type with
  | .minus =>
      match castToFloat l op with
      | .error e => .err e
      | .ok a =>
        match castToFloat r op with
        | .error e => .err e
        | .ok b => .ok (.number (a.fsub b))
  | .slash =>
      match castToFloat l op with
      | .error e => .err e
      | .ok a =>
        match castToFloat r op with
        | .error e => .err e
        | .ok b => .ok (.number (a.fdiv b))
  | .star =>
      match castToFloat l op with
      | .error e => .err e
      | .ok a =>
        match castToFloat r op with
        | .error e => .err e
        | .ok b => .ok (.number (a.fmul b))
  | .plus =>
      match l, r with
      | .string a, .string b => .ok (.string (a ++ b))
      | l', r' =>
        match castToFloat l' op with
        | .error e => .err e
        | .ok a =>
          match castToFloat r' op with
          | .error e => .err e
          | .ok b => .ok (.number (a.fadd b))
  | .greater =>
      match castToFloat l op with
      | .error e => .err e
      | .ok a =>
        match castToFloat r op with
        | .error e => .err e
        | .ok b => .ok (.bool (a.fgt b))
  | .greaterEqual =>
      match castToFloat l op with
      | .error e => .err e
      | .ok a =>
        match castToFloat r op with
        | .error e => .err e
        | .ok b => .ok (.bool (a.fge b))
  | .less =>
      match castToFloat l op with
      | .error e => .err e
      | .ok a =>
        match castToFloat r op with
        | .error e => .err e
        | .ok b => .ok (.bool (a.flt b))
  | .lessEqual =>
      match castToFloat l op with
      | .error e => .err e
      | .ok a =>
        match castToFloat r op with
        | .error e => .err e
        | .ok b => .ok (.bool (a.fle b))
  | .bangEqual => .ok (.bool (!(isEqual l r)))
  | .equalEqual => .ok (.bool (isEqual l r))
  | _ => .panic

/-- Operator dispatch of Interpreter::visit_unary after the operand has
been evaluated.  Note the Bang arm returns the truthiness itself, with
no negation, exactly as the source does. -/
def evalUnaryOp (op : Token) (r : Literal) : Res Literal :=
  match op.token_type with
  | .minus =>
      match castToFloat r op with
      | .error e => .err e
      | .ok a => .ok (.number a.fneg)
  | .bang => .ok (.bool (isTruthy r))
  | _ => .panic

mutual

/-- Interpreter::evaluate / the ExprVisitor impl, with fuel (every Rust
recursion is bounded by the expression tree, the fuel only serves to
make the mutual recursion structural). -/
def evalExpr : Nat → Expr → InterpState → Res Literal × InterpState
  | 0, _, s => (.nofuel, s)
  | n+1, e, s =>
    match e with
    | .binary left op right =>
      (match evalExpr n left s with
       | (.ok l, s1) =>
         (match evalExpr n right s1 with
          | (.ok r, s2) => (evalBinaryOp op l r, s2)
          | (.err e', s2) => (.err e', s2)
          | (.panic, s2) => (.panic, s2)
          | (.nofuel, s2) => (.nofuel, s2))
       | (.err e', s1) => (.err e', s1)
       | (.panic, s1) => (.panic, s1)
       | (.nofuel, s1) => (.nofuel, s1))
    | .call callee paren args =>
      (match evalExpr n callee s with
       | (.ok c, s1) =>
         (match evalArgs n args s1 with
          | (.ok argv, s2) =>
            (match c with
             | .callable k =>
               if argv.length ≠ k.arity then
                 (.err ⟨paren, "Expected " ++ toString k.arity ++
                    " arguments but got " ++ toString argv.length ++ "."⟩, s2)
               else callCallable k argv s2
             | _ => (.err ⟨paren, "Can only call functions and classes."⟩, s2))
          | (.err e', s2) => (.err e', s2)
          | (.panic, s2) => (.panic, s2)
          | (.nofuel, s2) => (.nofuel, s2))
       | (.err e', s1) => (.err e', s1)
       | (.panic, s1) => (.panic, s1)
       | (.nofuel, s1) => (.nofuel, s1))
    | .grouping inner => evalExpr n inner s
    | .literal l => (.ok l, s)
    | .logical left op right =>
      (match evalExpr n left s with
       | (.ok l, s1) =>
         (match op.token_type with
          | .or => if isTruthy l then (.ok l, s1) else evalExpr n right s1
          | .and => if !(isTruthy l) then (.ok l, s1) else evalExpr n right s1
          | _ => evalExpr n right s1)
       | (.err e', s1) => (.err e', s1)
       | (.panic, s1) => (.panic, s1)
       | (.nofuel, s1) => (.nofuel, s1))
    | .unary op right =>
      (match evalExpr n right s with
       | (.ok r, s1) => (evalUnaryOp op r, s1)
       | (.err e', s1) => (.err e', s1)
       | (.panic, s1) => (.panic, s1)
       | (.nofuel, s1) => (.nofuel, s1))
    | .variable name =>
      (match s.environment.get name with
       | .ok v => (.ok v, s)
       | .error e' => (.err e', s))
    | .assign name value =>
      (match evalExpr n value s with
       | (.ok v, s1) =>
         (match s1.environment.assign name v with
          | .ok env1 => (.ok v, { s1 with environment := env1 })
          | .error e' => (.err e', s1))
       | (.err e', s1) => (.err e', s1)
       | (.panic, s1) => (.panic, s1)
       | (.nofuel, s1) => (.nofuel, s1))

/-- Argument list evaluation inside Interpreter::visit_call. -/
def evalArgs : Nat → List Expr → InterpState → Res (List Literal) × InterpState
  | 0, _, s => (.nofuel, s)
  | _+1, [], s => (.ok [], s)
  | n+1, a :: rest, s =>
    match evalExpr n a s with
    | (.ok v, s1) =>
      (match evalArgs n rest s1 with
       | (.ok vs, s2) => (.ok (v :: vs), s2)
       | (.err e', s2) => (.err e', s2)
       | (.panic, s2) => (.panic, s2)
       | (.nofuel, s2) => (.nofuel, s2))
    | (.err e', s1) => (.err e', s1)
    | (.panic, s1) => (.panic, s1)
    | (.nofuel, s1) => (.nofuel, s1)

end

mutual

/-- Interpreter::execute / the StmtVisitor impl, with fuel for the
unbounded while loop. -/
def execStmt : Nat → Stmt → InterpState → Res Unit × InterpState
  | 0, _, s => (.nofuel, s)
  | n+1, stmt, s =>
    match stmt with
    | .expression e =>
      (match evalExpr n e s with
       | (.ok _, s1) => (.ok (), s1)
       | (.err e', s1) => (.err e', s1)
       | (.panic, s1) => (.panic, s1)
       | (.nofuel, s1) => (.nofuel, s1))
    | .print e =>
      (match evalExpr n e s with
       | (.ok v, s1) =>
         (match stringify v with
          | some str => (.ok (), { s1 with output := s1.output ++ [str] })
          | none => (.panic, s1))
       | (.err e', s1) => (.err e', s1)
       | (.panic, s1) => (.panic, s1)
       | (.nofuel, s1) => (.nofuel, s1))
    | .var name initializer =>
      (match (match initializer with
              | some e => evalExpr n e s
              | none => (.ok .nil, s)) with
       | (.ok v, s1) =>
         (match s1.environment.define name.lexeme v with
          | some env1 => (.ok (), { s1 with environment := env1 })
          | none => (.panic, s1))
       | (.err e', s1) => (.err e', s1)
       | (.panic, s1) => (.panic, s1)
       | (.nofuel, s1) => (.nofuel, s1))
    | .block stmts =>
      (let s0 := { s with environment := s.environment.push }
       match execSeq n stmts s0 with
       | (.ok _, s1) => (.ok (), { s1 with environment := s1.environment.pop })
       | (.err e', s1) => (.err e', { s1 with environment := s1.environment.pop })
       | (.panic, s1) => (.panic, s1)
       | (.nofuel, s1) => (.nofuel, s1))
    | .ifStmt cond thenBranch elseBranch =>
      (match evalExpr n cond s with
       | (.ok v, s1) =>
         if isTruthy v then execStmt n thenBranch s1
         else
           match elseBranch with
           | some e => execStmt n e s1
           | none => (.ok (), s1)
       | (.err e', s1) => (.err e', s1)
       | (.panic, s1) => (.panic, s1)
       | (.nofuel, s1) => (.nofuel, s1))
    | .whileStmt cond body =>
      (match evalExpr n cond s with
       | (.ok v, s1) =>
         if !(isTruthy v) then (.ok (), s1)
         else
           match execStmt n body s1 with
           | (.ok _, s2) => execStmt n (.whileStmt cond body) s2
           | (.err e', s2) => (.err e', s2)
           | (.panic, s2) => (.panic, s2)
           | (.nofuel, s2) => (.nofuel, s2)
       | (.err e', s1) => (.err e', s1)
       | (.panic, s1) => (.panic, s1)
       | (.nofuel, s1) => (.nofuel, s1))

/-- Statement loop of Interpreter::execute_block (runs statements until
one fails; the push/pop around it live in the block arm of execStmt,
and a panic propagates without the pop, as unwinding does). -/
def execSeq : Nat → List Stmt → InterpState → Res Unit × InterpState
  | 0, _, s => (.nofuel, s)
  | _+1, [], s => (.ok (), s)
  | n+1, stmt :: rest, s =>
    match execStmt n stmt s with
    | (.ok _, s1) => execSeq n rest s1
    | (.err e', s1) => (.err e', s1)
    | (.panic, s1) => (.panic, s1)
    | (.nofuel, s1) => (.nofuel, s1)

end

/-! ## Diagnostic sink (lib.rs) -/

/-- Lox from lib.rs: the two error flags plus the lines printed to
stdout (by report and by the direct println in the scanner). -/
structure LoxState where
  had_error : Bool
  had_runtime_error : Bool
  printed : List String
deriving DecidableEq

/-- Lox::new. -/
def initLox : LoxState :=
  { had_error := false, had_runtime_error := false, printed := [] }

/-- Lox::report: println the formatted diagnostic (the spacing is the
source format string's) and set had_error. -/
def loxReport (lox : LoxState) (line : Int) (location message : String) : LoxState :=
  { lox with
      printed := lox.printed ++
        ["[line " ++ toString line ++ " ] Error " ++ location ++ " : " ++ message],
      had_error := true }

/-! ## Scanner (scanner.rs) -/

/-- Outcome of a scanner step: a result, a Rust panic (a failing
unwrap), or fuel exhaustion of the embedding. -/
inductive SRes (α : Type) where
  | ok : α → SRes α
  | panic : SRes α
  | nofuel : SRes α
deriving DecidableEq

/-- Scanner from scanner.rs; the source string is kept as its character
list (the source is ASCII in every input considered, so the byte-based
len() and the char-based nth() of the Rust agree). -/
structure ScanState where
  source : List Char
  tokens : List Token
  start : Nat
  current : Nat
  line : Int
deriving DecidableEq

/-- Scanner::is_at_end. -/
def ScanState.isAtEnd (st : ScanState) : Bool :=
  st.current ≥ st.source.length

/-- Scanner::advance: increment current, then chars().nth(current - 1)
with a panic when the unwrap fails (current already past the end). -/
def ScanState.advance (st : ScanState) : SRes (Char × ScanState) :=
  let st1 := { st with current := st.current + 1 }
  match st.source.get? (st1.current - 1) with
  | some c => .ok (c, st1)
  | none => .panic

/-- Scanner::peek: the null char at end of input. -/
def ScanState.peek (st : ScanState) : Char :=
  if st.isAtEnd then Char.ofNat 0 else (st.source.get? st.current).getD (Char.ofNat 0)

/-- Scanner::peek_next. -/
def ScanState.peekNext (st : ScanState) : Char :=
  if st.current + 1 ≥ st.source.length then Char.ofNat 0
  else (st.source.get? (st.current + 1)).getD (Char.ofNat 0)

/-- Scanner::match_next: consume the next char only when it equals the
expected one (the unwrap is guarded by the is_at_end short-circuit). -/
def ScanState.matchNext (st : ScanState) (expected : Char) : Bool × ScanState :=
  if st.isAtEnd then (false, st)
  else if (st.source.get? st.current).getD (Char.ofNat 0) ≠ expected then (false, st)
  else (true, { st with current := st.current + 1 })

/-- Scanner::add_token: push a token whose lexeme is the source slice
from start to current. -/
def ScanState.addToken (st : ScanState) (tt : TokenType) : ScanState :=
  { st with tokens := st.tokens ++
      [⟨tt, String.mk ((st.source.drop st.start).take (st.current - st.start)), st.line⟩] }

/-- Scanner::is_digit. -/
def isDigitChar (c : Char) : Bool :=
  decide (Char.ofNat 48 ≤ c) && decide (c ≤ Char.ofNat 57)

/-- Scanner::is_alpha. -/
def isAlphaChar (c : Char) : Bool :=
  (decide (Char.ofNat 97 ≤ c) && decide (c ≤ Char.ofNat 122)) ||
  (decide (Char.ofNat 65 ≤ c) && decide (c ≤ Char.ofNat 90)) ||
  c = Char.ofNat 95

/-- Scanner::is_alpha_numeric. -/
def isAlphaNumericChar (c : Char) : Bool :=
  isAlphaChar c || isDigitChar c

/-- Loop of the line comment arm of Scanner::scan_token: consume until
end of input or a newline is next. -/
def lineCommentLoop : Nat → ScanState → SRes ScanState
  | 0, _ => .nofuel
  | n+1, st =>
    if !st.isAtEnd && st.peek ≠ Char.ofNat 10 then
      match st.advance with
      | .ok (_, st1) => lineCommentLoop n st1
      | .panic => .panic
      | .nofuel => .nofuel
    else .ok st

/-- Loop of the block comment arm of Scanner::scan_token, translated
with the Rust evaluation order: the condition itself advances, and when
the condition holds the body advances once more.  The condition checks
peek_next after the advance, so it looks one char past the one after
the consumed char, exactly as the source does. -/
def blockCommentLoop : Nat → ScanState → SRes ScanState
  | 0, _ => .nofuel
  | n+1, st =>
    if st.isAtEnd then .ok st
    else
      match st.advance with
      | .ok (c, st1) =>
        if c ≠ Char.ofNat 42 || st1.peekNext ≠ Char.ofNat 47 then
          match st1.advance with
          | .ok (_, st2) => blockCommentLoop n st2
          | .panic => .panic
          | .nofuel => .nofuel
        else .ok st1
      | .panic => .panic
      | .nofuel => .nofuel

/-- Loop of Scanner::string: consume until the closing quote or end of
input, bumping line on embedded newlines. -/
def stringLoop : Nat → ScanState → SRes ScanState
  | 0, _ => .nofuel
  | n+1, st =>
    if st.peek ≠ Char.ofNat 34 && !st.isAtEnd then
      let st' := if st.peek = Char.ofNat 10 then { st with line := st.line + 1 } else st
      match st'.advance with
      | .ok (_, st1) => stringLoop n st1
      | .panic => .panic
      | .nofuel => .nofuel
    else .ok st

/-- Scanner::string: on an unterminated string the source printlns the
line and "Unterminated string." directly (not via Lox::report) and
emits no token; otherwise the closing quote is consumed and the token
payload is the content without the quotes. -/
def scanString (fuel : Nat) (st : ScanState) (lox : LoxState) :
    SRes (ScanState × LoxState) :=
  match stringLoop fuel st with
  | .ok st1 =>
    if st1.isAtEnd then
      .ok (st1, { lox with printed := lox.printed ++
        [toString st1.line ++ " " ++ "Unterminated string."] })
    else
      match st1.advance with
      | .ok (_, st2) =>
        let value := String.mk ((st2.source.drop (st2.start + 1)).take (st2.current - 1 - (st2.start + 1)))
        .ok (st2.addToken (.string value), lox)
      | .panic => .panic
      | .nofuel => .nofuel
  | .panic => .panic
  | .nofuel => .nofuel

/-- Digit-consuming loop of Scanner::number. -/
def digitsLoop : Nat → ScanState → SRes ScanState
  | 0, _ => .nofuel
  | n+1, st =>
    if isDigitChar st.peek then
      match st.advance with
      | .ok (_, st1) => digitsLoop n st1
      | .panic => .panic
      | .nofuel => .nofuel
    else .ok st

/-- Value of a decimal digit character. -/
def digitVal (c : Char) : Nat := c.toNat - 48

/-- Model of str::parse for f64 on the scanned digit slices: an integer
part, and an optional fractional part after one dot. -/
def parseF64 (cs : List Char) : F64 :=
  let intPart := cs.takeWhile (fun c => c ≠ Char.ofNat 46)
  let fracPart := (cs.dropWhile (fun c => c ≠ Char.ofNat 46)).drop 1
  let ip : ℚ := intPart.foldl (fun acc c => acc * 10 + (digitVal c : ℚ)) 0
  let fp : ℚ := (fracPart.foldl (fun acc c => acc * 10 + (digitVal c : ℚ)) 0) /
      ((10 : ℚ) ^ fracPart.length)
  .num (ip + fp)

/-- Scanner::number. -/
def scanNumber (fuel : Nat) (st : ScanState) : SRes ScanState :=
  match digitsLoop fuel st with
  | .ok st1 =>
    if st1.peek = Char.ofNat 46 && isDigitChar st1.peekNext then
      match st1.advance with
      | .ok (_, st2) =>
        (match digitsLoop fuel st2 with
         | .ok st3 =>
           .ok (st3.addToken (.number (parseF64 ((st3.source.drop st3.start).take (st3.current - st3.start)))))
         | .panic => .panic
         | .nofuel => .nofuel)
      | .panic => .panic
      | .nofuel => .nofuel
    else
      .ok (st1.addToken (.number (parseF64 ((st1.source.drop st1.start).take (st1.current - st1.start)))))
  | .panic => .panic
  | .nofuel => .nofuel

/-- Identifier-consuming loop of Scanner::identifier. -/
def identLoop : Nat → ScanState → SRes ScanState
  | 0, _ => .nofuel
  | n+1, st =>
    if isAlphaNumericChar st.peek then
      match st.advance with
      | .ok (_, st1) => identLoop n st1
      | .panic => .panic
      | .nofuel => .nofuel
    else .ok st

/-- Reserved-word table of Scanner::identifier. -/
def keywordType (s : String) : TokenType :=
  if s = "and" then .and
  else if s = "class" then .class_
  else if s = "else" then .else_
  else if s = "false" then .false_
  else if s = "for" then .for_
  else if s = "fun" then .fun_
  else if s = "if" then .if_
  else if s = "nil" then .nil
  else if s = "or" then .or
  else if s = "print" then .print
  else if s = "return" then .return_
  else if s = "super" then .super_
  else if s = "this" then .this_
  else if s = "true" then .true_
  else if s = "var" then .var
  else if s = "while" then .while_
  else .identifier

/-- Scanner::identifier. -/
def scanIdentifier (fuel : Nat) (st : ScanState) : SRes ScanState :=
  match identLoop fuel st with
  | .ok st1 =>
    .ok (st1.addToken (keywordType (String.mk ((st1.source.drop st1.start).take (st1.current - st1.start)))))
  | .panic => .panic
  | .nofuel => .nofuel

/-- Scanner::scan_token: dispatch on the consumed character. -/
def scanToken (fuel : Nat) (st : ScanState) (lox : LoxState) :
    SRes (ScanState × LoxState) :=
  match st.advance with
  | .ok (c, st1) =>
    if c = '(' then .ok (st1.addToken .leftParen, lox)
    else if c = ')' then .ok (st1.addToken .rightParen, lox)
    else if c = Char.ofNat 123 then .ok (st1.addToken .leftBrace, lox)
    else if c = Char.ofNat 125 then .ok (st1.addToken .rightBrace, lox)
    else if c = ',' then .ok (st1.addToken .comma, lox)
    else if c = '.' then .ok (st1.addToken .dot, lox)
    else if c = '-' then .ok (st1.addToken .minus, lox)
    else if c = '+' then .ok (st1.addToken .plus, lox)
    else if c = ';' then .ok (st1.addToken .semicolon, lox)
    else if c = '*' then .ok (st1.addToken .star, lox)
    else if c = '!' then
      let (m, st2) := st1.matchNext '='
      .ok (st2.addToken (if m then .bangEqual else .bang), lox)
    else if c = '=' then
      let (m, st2) := st1.matchNext '='
      .ok (st2.addToken (if m then .equalEqual else .equal), lox)
    else if c = '<' then
      let (m, st2) := st1.matchNext '='
      .ok (st2.addToken (if m then .lessEqual else .less), lox)
    else if c = '>' then
      let (m, st2) := st1.matchNext '='
      .ok (st2.addToken (if m then .greaterEqual else .greater), lox)
    else if c = '/' then
      let (m, st2) := st1.matchNext '/'
      if m then
        match lineCommentLoop fuel st2 with
        | .ok st3 => .ok (st3, lox)
        | .panic => .panic
        | .nofuel => .nofuel
      else
        let (m2, st3) := st2.matchNext '*'
        if m2 then
          match blockCommentLoop fuel st3 with
          | .ok st4 =>
            (match st4.advance with
             | .ok (_, st5) =>
               (match st5.advance with
                | .ok (_, st6) => .ok (st6, lox)
                | .panic => .panic
                | .nofuel => .nofuel)
             | .panic => .panic
             | .nofuel => .nofuel)
          | .panic => .panic
          | .nofuel => .nofuel
        else .ok (st3.addToken .slash, lox)
    else if c = ' ' || c = Char.ofNat 13 || c = Char.ofNat 9 then .ok (st1, lox)
    else if c = Char.ofNat 10 then .ok ({ st1 with line := st1.line + 1 }, lox)
    else if c = Char.ofNat 34 then scanString fuel st1 lox
    else if isDigitChar c then
      (match scanNumber fuel st1 with
       | .ok st2 => .ok (st2, lox)
       | .panic => .panic
       | .nofuel => .nofuel)
    else if isAlphaChar c then
      (match scanIdentifier fuel st1 with
       | .ok st2 => .ok (st2, lox)
       | .panic => .panic
       | .nofuel => .nofuel)
    else
      .ok (st1, loxReport lox st1.line "" ("Unexpected character " ++ quoted (String.mk [c])))
  | .panic => .panic
  | .nofuel => .nofuel

/-- Loop of Scanner::scan_tokens: set start to current and scan one
token while not at end. -/
def scanTokensLoop : Nat → ScanState → LoxState → SRes (ScanState × LoxState)
  | 0, _, _ => .nofuel
  | n+1, st, lox =>
    if !st.isAtEnd then
      match scanToken n { st with start := st.current } lox with
      | .ok (st1, lox1) => scanTokensLoop n st1 lox1
      | .panic => .panic
      | .nofuel => .nofuel
    else .ok (st, lox)

/-- Scanner::scan_tokens on a fresh Scanner::new state: run the loop,
then append the Eof token. -/
def scanTokens (fuel : Nat) (source : String) (lox : LoxState) :
    SRes (List Token × LoxState) :=
  match scanTokensLoop fuel ⟨source.data, [], 0, 0, 1⟩ lox with
  | .ok (st, lox1) => .ok (st.tokens ++ [⟨.eof, "", st.line⟩], lox1)
  | .panic => .panic
  | .nofuel => .nofuel

/-! ## Parser (parser.rs) -/

/-- Outcome of a parser step: a result, the recoverable Err(()) failure
signal, a Rust panic (failing unwrap / panic!), or fuel exhaustion of
the embedding. -/
inductive PRes (α : Type) where
  | ok : α → PRes α
  | perr : PRes α
  | panic : PRes α
  | nofuel : PRes α
deriving DecidableEq

/-- Parser from parser.rs, together with the borrowed Lox sink. -/
structure PState where
  tokens : List Token
  current : Nat
  lox : LoxState
deriving DecidableEq

/-- Parser::peek: tokens.get(current).unwrap(), panicking past the
end. -/
def ppeek (st : PState) : PRes Token :=
  match st.tokens.get? st.current with
  | some t => .ok t
  | none => .panic

/-- Parser::previous: tokens.get(current - 1).unwrap(); at current = 0
the usize subtraction itself is a panic. -/
def pprevious (st : PState) : PRes Token :=
  if st.current = 0 then .panic
  else
    match st.tokens.get? (st.current - 1) with
    | some t => .ok t
    | none => .panic

/-- Parser::is_at_end: whether peek is the Eof token. -/
def pIsAtEnd (st : PState) : PRes Bool :=
  match ppeek st with
  | .ok t =>
    .ok (match t.token_type with
         | .eof => true
         | _ => false)
  | .perr => .perr
  | .panic => .panic
  | .nofuel => .nofuel

/-- Parser::check: false at end; Number and String match at kind level
ignoring payloads; other kinds compare with the derived PartialEq. -/
def pcheck (tt : TokenType) (st : PState) : PRes Bool :=
  match pIsAtEnd st with
  | .ok true => .ok false
  | .ok false =>
    (match ppeek st with
     | .ok t =>
       .ok (match t.token_type, tt with
            | .number _, .number _ => true
            | .string _, .string _ => true
            | a, b => a.rustEq b)
     | .perr => .perr
     | .panic => .panic
     | .nofuel => .nofuel)
  | .perr => .perr
  | .panic => .panic
  | .nofuel => .nofuel

/-- Parser::advance: step current unless at end, then return previous. -/
def padvance (st : PState) : PRes Token × PState :=
  match pIsAtEnd st with
  | .ok b =>
    (let st1 := if !b then { st with current := st.current + 1 } else st
     match pprevious st1 with
     | .ok t => (.ok t, st1)
     | .perr => (.perr, st1)
     | .panic => (.panic, st1)
     | .nofuel => (.nofuel, st1))
  | .perr => (.perr, st)
  | .panic => (.panic, st)
  | .nofuel => (.nofuel, st)

/-- Parser::match_token_types: try each kind in order and consume the
token on the first hit. -/
def matchTokenTypes : List TokenType → PState → PRes Bool × PState
  | [], st => (.ok false, st)
  | tt :: rest, st =>
    match pcheck tt st with
    | .ok true =>
      (match padvance st with
       | (.ok _, st1) => (.ok true, st1)
       | (.perr, st1) => (.perr, st1)
       | (.panic, st1) => (.panic, st1)
       | (.nofuel, st1) => (.nofuel, st1))
    | .ok false => matchTokenTypes rest st
    | .perr => (.perr, st)
    | .panic => (.panic, st)
    | .nofuel => (.nofuel, st)

/-- Parser::error: report through the Lox sink, with the at-end
location for the Eof token, and yield the Err(()) signal. -/
def reportParseError (lox : LoxState) (token : Token) (message : String) : LoxState :=
  if token.token_type.rustEq .eof then loxReport lox token.line " at end" message
  else loxReport lox token.line (" at " ++ quoted token.lexeme) message

/-- Error return of Parser::error at a given token (report, then
Err(())). -/
def perrAt (st : PState) (token : Token) (message : String) : PRes α × PState :=
  (.perr, { st with lox := reportParseError st.lox token message })

/-- Parser::consume: advance past the expected kind, else error at the
peeked token. -/
def pconsume (tt : TokenType) (message : String) (st : PState) : PRes Token × PState :=
  match pcheck tt st with
  | .ok true => padvance st
  | .ok false =>
    (match ppeek st with
     | .ok t => perrAt st t message
     | .perr => (.perr, st)
     | .panic => (.panic, st)
     | .nofuel => (.nofuel, st))
  | .perr => (.perr, st)
  | .panic => (.panic, st)
  | .nofuel => (.nofuel, st)

/-- Loop of Parser::synchronize: skip until just after a semicolon or
just before a statement keyword. -/
def psyncLoop : Nat → PState → PRes Unit × PState
  | 0, st => (.nofuel, st)
  | n+1, st =>
    match pIsAtEnd st with
    | .ok true => (.ok (), st)
    | .ok false =>
      (match pprevious st with
       | .ok prev =>
         (match prev.token_type with
          | .semicolon => (.ok (), st)
          | _ =>
            match ppeek st with
            | .ok t =>
              (match t.token_type with
               | .class_ | .fun_ | .var | .for_ | .if_ | .while_ | .print | .return_ =>
                   (.ok (), st)
               | _ =>
                 match padvance st with
                 | (.ok _, st1) => psyncLoop n st1
                 | (.perr, st1) => (.perr, st1)
                 | (.panic, st1) => (.panic, st1)
                 | (.nofuel, st1) => (.nofuel, st1))
            | .perr => (.perr, st)
            | .panic => (.panic, st)
            | .nofuel => (.nofuel, st))
       | .perr => (.perr, st)
       | .panic => (.panic, st)
       | .nofuel => (.nofuel, st))
    | .perr => (.perr, st)
    | .panic => (.panic, st)
    | .nofuel => (.nofuel, st)

/-- Parser::synchronize: one advance, then the skip loop. -/
def psynchronize (fuel : Nat) (st : PState) : PRes Unit × PState :=
  match padvance st with
  | (.ok _, st1) => psyncLoop fuel st1
  | (.perr, st1) => (.perr, st1)
  | (.panic, st1) => (.panic, st1)
  | (.nofuel, st1) => (.nofuel, st1)

mutual

/-- Parser::declaration: var declarations or statements; a recoverable
failure synchronizes and yields no statement. -/
def pDeclaration : Nat → PState → PRes (Option Stmt) × PState
  | 0, st => (.nofuel, st)
  | n+1, st =>
    match matchTokenTypes [.var] st with
    | (.ok m, st1) =>
      (match (if m then pVarDeclaration n st1 else pStatement n st1) with
       | (.ok stmt, st2) => (.ok (some stmt), st2)
       | (.perr, st2) =>
         (match psynchronize n st2 with
          | (.ok _, st3) => (.ok none, st3)
          | (.perr, st3) => (.perr, st3)
          | (.panic, st3) => (.panic, st3)
          | (.nofuel, st3) => (.nofuel, st3))
       | (.panic, st2) => (.panic, st2)
       | (.nofuel, st2) => (.nofuel, st2))
    | (.perr, st1) => (.perr, st1)
    | (.panic, st1) => (.panic, st1)
    | (.nofuel, st1) => (.nofuel, st1)

/-- Parser::var_declaration. -/
def pVarDeclaration : Nat → PState → PRes Stmt × PState
  | 0, st => (.nofuel, st)
  | n+1, st =>
    match pconsume .identifier "Expect variable name." st with
    | (.ok name, st1) =>
      (match matchTokenTypes [.equal] st1 with
       | (.ok true, st2) =>
         (match pExpression n st2 with
          | (.ok init, st3) =>
            (match pconsume .semicolon ("Expect " ++ quoted ";" ++ " after variable declaration.") st3 with
             | (.ok _, st4) => (.ok (.var name (some init)), st4)
             | (.perr, st4) => (.perr, st4)
             | (.panic, st4) => (.panic, st4)
             | (.nofuel, st4) => (.nofuel, st4))
          | (.perr, st3) => (.perr, st3)
          | (.panic, st3) => (.panic, st3)
          | (.nofuel, st3) => (.nofuel, st3))
       | (.ok false, st2) =>
         (match pconsume .semicolon ("Expect " ++ quoted ";" ++ " after variable declaration.") st2 with
          | (.ok _, st4) => (.ok (.var name none), st4)
          | (.perr, st4) => (.perr, st4)
          | (.panic, st4) => (.panic, st4)
          | (.nofuel, st4) => (.nofuel, st4))
       | (.perr, st2) => (.perr, st2)
       | (.panic, st2) => (.panic, st2)
       | (.nofuel, st2) => (.nofuel, st2))
    | (.perr, st1) => (.perr, st1)
    | (.panic, st1) => (.panic, st1)
    | (.nofuel, st1) => (.nofuel, st1)

/-- Parser::statement: dispatch on the leading keyword. -/
def pStatement : Nat → PState → PRes Stmt × PState
  | 0, st => (.nofuel, st)
  | n+1, st =>
    match matchTokenTypes [.for_] st with
    | (.ok true, st1) => pForStatement n st1
    | (.ok false, st1) =>
      (match matchTokenTypes [.if_] st1 with
       | (.ok true, st2) => pIfStatement n st2
       | (.ok false, st2) =>
         (match matchTokenTypes [.print] st2 with
          | (.ok true, st3) => pPrintStatement n st3
          | (.ok false, st3) =>
            (match matchTokenTypes [.while_] st3 with
             | (.ok true, st4) => pWhileStatement n st4
             | (.ok false, st4) =>
               (match matchTokenTypes [.leftBrace] st4 with
                | (.ok true, st5) =>
                  (match pBlockList n st5 with
                   | (.ok stmts, st6) => (.ok (.block stmts), st6)
                   | (.perr, st6) => (.perr, st6)
                   | (.panic, st6) => (.panic, st6)
                   | (.nofuel, st6) => (.nofuel, st6))
                | (.ok false, st5) => pExpressionStatement n st5
                | (.perr, st5) => (.perr, st5)
                | (.panic, st5) => (.panic, st5)
                | (.nofuel, st5) => (.nofuel, st5))
             | (.perr, st4) => (.perr, st4)
             | (.panic, st4) => (.panic, st4)
             | (.nofuel, st4) => (.nofuel, st4))
          | (.perr, st3) => (.perr, st3)
          | (.panic, st3) => (.panic, st3)
          | (.nofuel, st3) => (.nofuel, st3))
       | (.perr, st2) => (.perr, st2)
       | (.panic, st2) => (.panic, st2)
       | (.nofuel, st2) => (.nofuel, st2))
    | (.perr, st1) => (.perr, st1)
    | (.panic, st1) => (.panic, st1)
    | (.nofuel, st1) => (.nofuel, st1)

/-- Parser::for_statement: parse the clauses, then assemble the
desugared statement exactly as the source's sequence of rebindings
does: wrap the increment after the body, wrap in While, wrap with the
initializer. -/
def pForStatement : Nat → PState → PRes Stmt × PState
  | 0, st => (.nofuel, st)
  | n+1, st =>
    match pconsume .leftParen ("Expect " ++ quoted "(" ++ " after " ++ quoted "for" ++ ".") st with
    | (.ok _, st1) =>
      (match matchTokenTypes [.semicolon] st1 with
       | (.ok true, st2) => pForStatementRest n none st2
       | (.ok false, st2) =>
         (match matchTokenTypes [.var] st2 with
          | (.ok true, st3) =>
            (match pVarDeclaration n st3 with
             | (.ok init, st4) => pForStatementRest n (some init) st4
             | (.perr, st4) => (.perr, st4)
             | (.panic, st4) => (.panic, st4)
             | (.nofuel, st4) => (.nofuel, st4))
          | (.ok false, st3) =>
            (match pExpressionStatement n st3 with
             | (.ok init, st4) => pForStatementRest n (some init) st4
             | (.perr, st4) => (.perr, st4)
             | (.panic, st4) => (.panic, st4)
             | (.nofuel, st4) => (.nofuel, st4))
          | (.perr, st3) => (.perr, st3)
          | (.panic, st3) => (.panic, st3)
          | (.nofuel, st3) => (.nofuel, st3))
       | (.perr, st2) => (.perr, st2)
       | (.panic, st2) => (.panic, st2)
       | (.nofuel, st2) => (.nofuel, st2))
    | (.perr, st1) => (.perr, st1)
    | (.panic, st1) => (.panic, st1)
    | (.nofuel, st1) => (.nofuel, st1)

/-- Continuation of Parser::for_statement after the initializer clause:
condition (defaulting to Literal(true)), increment, closing paren,
body, then the desugaring rebindings of the source. -/
def pForStatementRest : Nat → Option Stmt → PState → PRes Stmt × PState
  | 0, _, st => (.nofuel, st)
  | n+1, initializer, st =>
    match pcheck .semicolon st with
    | .ok condAbsent =>
      (match (if condAbsent then (.ok (Expr.literal (.bool true)), st) else pExpression n st) with
       | (.ok cond, st1) =>
         (match pconsume .semicolon ("Expect " ++ quoted ";" ++ " after loop condition.") st1 with
          | (.ok _, st2) =>
            (match pcheck .rightParen st2 with
             | .ok incAbsent =>
               (match (if incAbsent then ((.ok none : PRes (Option Expr)), st2)
                       else match pExpression n st2 with
                            | (.ok e, st3) => (.ok (some e), st3)
                            | (.perr, st3) => (.perr, st3)
                            | (.panic, st3) => (.panic, st3)
                            | (.nofuel, st3) => (.nofuel, st3)) with
                | (.ok increment, st4) =>
                  (match pconsume .rightParen ("Expect " ++ quoted ")" ++ " after for clauses.") st4 with
                   | (.ok _, st5) =>
                     (match pStatement n st5 with
                      | (.ok body, st6) =>
                        (let body1 :=
                           match increment with
                           | some inc => Stmt.block [body, .expression inc]
                           | none => body
                         let body2 := Stmt.whileStmt cond body1
                         let body3 :=
                           match initializer with
                           | some i => Stmt.block [i, body2]
                           | none => body2
                         (.ok body3, st6))
                      | (.perr, st6) => (.perr, st6)
                      | (.panic, st6) => (.panic, st6)
                      | (.nofuel, st6) => (.nofuel, st6))
                   | (.perr, st5) => (.perr, st5)
                   | (.panic, st5) => (.panic, st5)
                   | (.nofuel, st5) => (.nofuel, st5))
                | (.perr, st4) => (.perr, st4)
                | (.panic, st4) => (.panic, st4)
                | (.nofuel, st4) => (.nofuel, st4))
             | .perr => (.perr, st2)
             | .panic => (.panic, st2)
             | .nofuel => (.nofuel, st2))
          | (.perr, st2) => (.perr, st2)
          | (.panic, st2) => (.panic, st2)
          | (.nofuel, st2) => (.nofuel, st2))
       | (.perr, st1) => (.perr, st1)
       | (.panic, st1) => (.panic, st1)
       | (.nofuel, st1) => (.nofuel, st1))
    | .perr => (.perr, st)
    | .panic => (.panic, st)
    | .nofuel => (.nofuel, st)

/-- Parser::if_statement. -/
def pIfStatement : Nat → PState → PRes Stmt × PState
  | 0, st => (.nofuel, st)
  | n+1, st =>
    match pconsume .leftParen ("Expect " ++ quoted "(" ++ " after " ++ quoted "if" ++ ".") st with
    | (.ok _, st1) =>
      (match pExpression n st1 with
       | (.ok cond, st2) =>
         (match pconsume .rightParen ("Expect " ++ quoted ")" ++ " after if condition.") st2 with
          | (.ok _, st3) =>
            (match pStatement n st3 with
             | (.ok thenBranch, st4) =>
               (match matchTokenTypes [.else_] st4 with
                | (.ok true, st5) =>
                  (match pStatement n st5 with
                   | (.ok elseBranch, st6) =>
                       (.ok (.ifStmt cond thenBranch (some elseBranch)), st6)
                   | (.perr, st6) => (.perr, st6)
                   | (.panic, st6) => (.panic, st6)
                   | (.nofuel, st6) => (.nofuel, st6))
                | (.ok false, st5) => (.ok (.ifStmt cond thenBranch none), st5)
                | (.perr, st5) => (.perr, st5)
                | (.panic, st5) => (.panic, st5)
                | (.nofuel, st5) => (.nofuel, st5))
             | (.perr, st4) => (.perr, st4)
             | (.panic, st4) => (.panic, st4)
             | (.nofuel, st4) => (.nofuel, st4))
          | (.perr, st3) => (.perr, st3)
          | (.panic, st3) => (.panic, st3)
          | (.nofuel, st3) => (.nofuel, st3))
       | (.perr, st2) => (.perr, st2)
       | (.panic, st2) => (.panic, st2)
       | (.nofuel, st2) => (.nofuel, st2))
    | (.perr, st1) => (.perr, st1)
    | (.panic, st1) => (.panic, st1)
    | (.nofuel, st1) => (.nofuel, st1)

/-- Parser::print_statement. -/
def pPrintStatement : Nat → PState → PRes Stmt × PState
  | 0, st => (.nofuel, st)
  | n+1, st =>
    match pExpression n st with
    | (.ok value, st1) =>
      (match pconsume .semicolon ("Expect " ++ quoted ";" ++ " after value.") st1 with
       | (.ok _, st2) => (.ok (.print value), st2)
       | (.perr, st2) => (.perr, st2)
       | (.panic, st2) => (.panic, st2)
       | (.nofuel, st2) => (.nofuel, st2))
    | (.perr, st1) => (.perr, st1)
    | (.panic, st1) => (.panic, st1)
    | (.nofuel, st1) => (.nofuel, st1)

/-- Parser::while_statement. -/
def pWhileStatement : Nat → PState → PRes Stmt × PState
  | 0, st => (.nofuel, st)
  | n+1, st =>
    match pconsume .leftParen ("Expect " ++ quoted "(" ++ " after " ++ quoted "while" ++ ".") st with
    | (.ok _, st1) =>
      (match pExpression n st1 with
       | (.ok cond, st2) =>
         (match pconsume .rightParen ("Expect " ++ quoted ")" ++ " after condition.") st2 with
          | (.ok _, st3) =>
            (match pStatement n st3 with
             | (.ok body, st4) => (.ok (.whileStmt cond body), st4)
             | (.perr, st4) => (.perr, st4)
             | (.panic, st4) => (.panic, st4)
             | (.nofuel, st4) => (.nofuel, st4))
          | (.perr, st3) => (.perr, st3)
          | (.panic, st3) => (.panic, st3)
          | (.nofuel, st3) => (.nofuel, st3))
       | (.perr, st2) => (.perr, st2)
       | (.panic, st2) => (.panic, st2)
       | (.nofuel, st2) => (.nofuel, st2))
    | (.perr, st1) => (.perr, st1)
    | (.panic, st1) => (.panic, st1)
    | (.nofuel, st1) => (.nofuel, st1)

/-- Declaration loop of Parser::block. -/
def pBlockLoop : Nat → List Stmt → PState → PRes (List Stmt) × PState
  | 0, _, st => (.nofuel, st)
  | n+1, acc, st =>
    match pcheck .rightBrace st with
    | .ok true => (.ok acc, st)
    | .ok false =>
      (match pIsAtEnd st with
       | .ok true => (.ok acc, st)
       | .ok false =>
         (match pDeclaration n st with
          | (.ok opt, st1) =>
            pBlockLoop n (acc ++ opt.toList) st1
          | (.perr, st1) => (.perr, st1)
          | (.panic, st1) => (.panic, st1)
          | (.nofuel, st1) => (.nofuel, st1))
       | .perr => (.perr, st)
       | .panic => (.panic, st)
       | .nofuel => (.nofuel, st))
    | .perr => (.perr, st)
    | .panic => (.panic, st)
    | .nofuel => (.nofuel, st)

/-- Parser::block: the declaration loop, then the closing brace. -/
def pBlockList : Nat → PState → PRes (List Stmt) × PState
  | 0, st => (.nofuel, st)
  | n+1, st =>
    match pBlockLoop n [] st with
    | (.ok stmts, st1) =>
      (match pconsume .rightBrace ("Expect " ++ quoted "\x7d" ++ " after block.") st1 with
       | (.ok _, st2) => (.ok stmts, st2)
       | (.perr, st2) => (.perr, st2)
       | (.panic, st2) => (.panic, st2)
       | (.nofuel, st2) => (.nofuel, st2))
    | (.perr, st1) => (.perr, st1)
    | (.panic, st1) => (.panic, st1)
    | (.nofuel, st1) => (.nofuel, st1)

/-- Parser::expression_statement (the semicolon is only required away
from end of input, the source's REPL leniency). -/
def pExpressionStatement : Nat → PState → PRes Stmt × PState
  | 0, st => (.nofuel, st)
  | n+1, st =>
    match pExpression n st with
    | (.ok expr, st1) =>
      (match pIsAtEnd st1 with
       | .ok atEnd =>
         if !atEnd then
           match pconsume .semicolon ("Expect " ++ quoted ";" ++ " after expression.") st1 with
           | (.ok _, st2) => (.ok (.expression expr), st2)
           | (.perr, st2) => (.perr, st2)
           | (.panic, st2) => (.panic, st2)
           | (.nofuel, st2) => (.nofuel, st2)
         else (.ok (.expression expr), st1)
       | .perr => (.perr, st1)
       | .panic => (.panic, st1)
       | .nofuel => (.nofuel, st1))
    | (.perr, st1) => (.perr, st1)
    | (.panic, st1) => (.panic, st1)
    | (.nofuel, st1) => (.nofuel, st1)

/-- Parser::expression. -/
def pExpression : Nat → PState → PRes Expr × PState
  | 0, st => (.nofuel, st)
  | n+1, st => pAssignment n st

/-- Parser::assignment: parse the LHS, and on a following = parse the
RHS as an assignment; rewrite into Assign only when the LHS is a
Variable, otherwise error at the = token (which yields Err(()), exactly
as the source returns the self.error result). -/
def pAssignment : Nat → PState → PRes Expr × PState
  | 0, st => (.nofuel, st)
  | n+1, st =>
    match pOr n st with
    | (.ok expr, st1) =>
      (match matchTokenTypes [.equal] st1 with
       | (.ok true, st2) =>
         (match pprevious st2 with
          | .ok equals =>
            (match pAssignment n st2 with
             | (.ok value, st3) =>
               (match expr with
                | .variable v => (.ok (.assign v value), st3)
                | _ => perrAt st3 equals "Invalid assignment target.")
             | (.perr, st3) => (.perr, st3)
             | (.panic, st3) => (.panic, st3)
             | (.nofuel, st3) => (.nofuel, st3))
          | .perr => (.perr, st2)
          | .panic => (.panic, st2)
          | .nofuel => (.nofuel, st2))
       | (.ok false, st2) => (.ok expr, st2)
       | (.perr, st2) => (.perr, st2)
       | (.panic, st2) => (.panic, st2)
       | (.nofuel, st2) => (.nofuel, st2))
    | (.perr, st1) => (.perr, st1)
    | (.panic, st1) => (.panic, st1)
    | (.nofuel, st1) => (.nofuel, st1)

/-- Parser::or. -/
def pOr : Nat → PState → PRes Expr × PState
  | 0, st => (.nofuel, st)
  | n+1, st =>
    match pAnd n st with
    | (.ok expr, st1) => pOrLoop n expr st1
    | (.perr, st1) => (.perr, st1)
    | (.panic, st1) => (.panic, st1)
    | (.nofuel, st1) => (.nofuel, st1)

/-- Iteration of Parser::or. -/
def pOrLoop : Nat → Expr → PState → PRes Expr × PState
  | 0, _, st => (.nofuel, st)
  | n+1, expr, st =>
    match matchTokenTypes [.or] st with
    | (.ok true, st1) =>
      (match pprevious st1 with
       | .ok operator =>
         (match pAnd n st1 with
          | (.ok right, st2) => pOrLoop n (.logical expr operator right) st2
          | (.perr, st2) => (.perr, st2)
          | (.panic, st2) => (.panic, st2)
          | (.nofuel, st2) => (.nofuel, st2))
       | .perr => (.perr, st1)
       | .panic => (.panic, st1)
       | .nofuel => (.nofuel, st1))
    | (.ok false, st1) => (.ok expr, st1)
    | (.perr, st1) => (.perr, st1)
    | (.panic, st1) => (.panic, st1)
    | (.nofuel, st1) => (.nofuel, st1)

/-- Parser::and. -/
def pAnd : Nat → PState → PRes Expr × PState
  | 0, st => (.nofuel, st)
  | n+1, st =>
    match pEquality n st with
    | (.ok expr, st1) => pAndLoop n expr st1
    | (.perr, st1) => (.perr, st1)
    | (.panic, st1) => (.panic, st1)
    | (.nofuel, st1) => (.nofuel, st1)

/-- Iteration of Parser::and. -/
def pAndLoop : Nat → Expr → PState → PRes Expr × PState
  | 0, _, st => (.nofuel, st)
  | n+1, expr, st =>
    match matchTokenTypes [.and] st with
    | (.ok true, st1) =>
      (match pprevious st1 with
       | .ok operator =>
         (match pEquality n st1 with
          | (.ok right, st2) => pAndLoop n (.logical expr operator right) st2
          | (.perr, st2) => (.perr, st2)
          | (.panic, st2) => (.panic, st2)
          | (.nofuel, st2) => (.nofuel, st2))
       | .perr => (.perr, st1)
       | .panic => (.panic, st1)
       | .nofuel => (.nofuel, st1))
    | (.ok false, st1) => (.ok expr, st1)
    | (.perr, st1) => (.perr, st1)
    | (.panic, st1) => (.panic, st1)
    | (.nofuel, st1) => (.nofuel, st1)

/-- Parser::equality. -/
def pEquality : Nat → PState → PRes Expr × PState
  | 0, st => (.nofuel, st)
  | n+1, st =>
    match pComparison n st with
    | (.ok expr, st1) => pEqualityLoop n expr st1
    | (.perr, st1) => (.perr, st1)
    | (.panic, st1) => (.panic, st1)
    | (.nofuel, st1) => (.nofuel, st1)

/-- Iteration of Parser::equality. -/
def pEqualityLoop : Nat → Expr → PState → PRes Expr × PState
  | 0, _, st => (.nofuel, st)
  | n+1, expr, st =>
    match matchTokenTypes [.bangEqual, .equalEqual] st with
    | (.ok true, st1) =>
      (match pprevious st1 with
       | .ok operator =>
         (match pComparison n st1 with
          | (.ok right, st2) => pEqualityLoop n (.binary expr operator right) st2
          | (.perr, st2) => (.perr, st2)
          | (.panic, st2) => (.panic, st2)
          | (.nofuel, st2) => (.nofuel, st2))
       | .perr => (.perr, st1)
       | .panic => (.panic, st1)
       | .nofuel => (.nofuel, st1))
    | (.ok false, st1) => (.ok expr, st1)
    | (.perr, st1) => (.perr, st1)
    | (.panic, st1) => (.panic, st1)
    | (.nofuel, st1) => (.nofuel, st1)

/-- Parser::comparison. -/
def pComparison : Nat → PState → PRes Expr × PState
  | 0, st => (.nofuel, st)
  | n+1, st =>
    match pTerm n st with
    | (.ok expr, st1) => pComparisonLoop n expr st1
    | (.perr, st1) => (.perr, st1)
    | (.panic, st1) => (.panic, st1)
    | (.nofuel, st1) => (.nofuel, st1)

/-- Iteration of Parser::comparison. -/
def pComparisonLoop : Nat → Expr → PState → PRes Expr × PState
  | 0, _, st => (.nofuel, st)
  | n+1, expr, st =>
    match matchTokenTypes [.greater, .greaterEqual, .less, .lessEqual] st with
    | (.ok true, st1) =>
      (match pprevious st1 with
       | .ok operator =>
         (match pTerm n st1 with
          | (.ok right, st2) => pComparisonLoop n (.binary expr operator right) st2
          | (.perr, st2) => (.perr, st2)
          | (.panic, st2) => (.panic, st2)
          | (.nofuel, st2) => (.nofuel, st2))
       | .perr => (.perr, st1)
       | .panic => (.panic, st1)
       | .nofuel => (.nofuel, st1))
    | (.ok false, st1) => (.ok expr, st1)
    | (.perr, st1) => (.perr, st1)
    | (.panic, st1) => (.panic, st1)
    | (.nofuel, st1) => (.nofuel, st1)

/-- Parser::term. -/
def pTerm : Nat → PState → PRes Expr × PState
  | 0, st => (.nofuel, st)
  | n+1, st =>
    match pFactor n st with
    | (.ok expr, st1) => pTermLoop n expr st1
    | (.perr, st1) => (.perr, st1)
    | (.panic, st1) => (.panic, st1)
    | (.nofuel, st1) => (.nofuel, st1)

/-- Iteration of Parser::term. -/
def pTermLoop : Nat → Expr → PState → PRes Expr × PState
  | 0, _, st => (.nofuel, st)
  | n+1, expr, st =>
    match matchTokenTypes [.minus, .plus] st with
    | (.ok true, st1) =>
      (match pprevious st1 with
       | .ok operator =>
         (match pFactor n st1 with
          | (.ok right, st2) => pTermLoop n (.binary expr operator right) st2
          | (.perr, st2) => (.perr, st2)
          | (.panic, st2) => (.panic, st2)
          | (.nofuel, st2) => (.nofuel, st2))
       | .perr => (.perr, st1)
       | .panic => (.panic, st1)
       | .nofuel => (.nofuel, st1))
    | (.ok false, st1) => (.ok expr, st1)
    | (.perr, st1) => (.perr, st1)
    | (.panic, st1) => (.panic, st1)
    | (.nofuel, st1) => (.nofuel, st1)

/-- Parser::factor. -/
def pFactor : Nat → PState → PRes Expr × PState
  | 0, st => (.nofuel, st)
  | n+1, st =>
    match pUnary n st with
    | (.ok expr, st1) => pFactorLoop n expr st1
    | (.perr, st1) => (.perr, st1)
    | (.panic, st1) => (.panic, st1)
    | (.nofuel, st1) => (.nofuel, st1)

/-- Iteration of Parser::factor. -/
def pFactorLoop : Nat → Expr → PState → PRes Expr × PState
  | 0, _, st => (.nofuel, st)
  | n+1, expr, st =>
    match matchTokenTypes [.slash, .star] st with
    | (.ok true, st1) =>
      (match pprevious st1 with
       | .ok operator =>
         (match pUnary n st1 with
          | (.ok right, st2) => pFactorLoop n (.binary expr operator right) st2
          | (.perr, st2) => (.perr, st2)
          | (.panic, st2) => (.panic, st2)
          | (.nofuel, st2) => (.nofuel, st2))
       | .perr => (.perr, st1)
       | .panic => (.panic, st1)
       | .nofuel => (.nofuel, st1))
    | (.ok false, st1) => (.ok expr, st1)
    | (.perr, st1) => (.perr, st1)
    | (.panic, st1) => (.panic, st1)
    | (.nofuel, st1) => (.nofuel, st1)

/-- Parser::unary. -/
def pUnary : Nat → PState → PRes Expr × PState
  | 0, st => (.nofuel, st)
  | n+1, st =>
    match matchTokenTypes [.bang, .minus] st with
    | (.ok true, st1) =>
      (match pprevious st1 with
       | .ok operator =>
         (match pUnary n st1 with
          | (.ok right, st2) => (.ok (.unary operator right), st2)
          | (.perr, st2) => (.perr, st2)
          | (.panic, st2) => (.panic, st2)
          | (.nofuel, st2) => (.nofuel, st2))
       | .perr => (.perr, st1)
       | .panic => (.panic, st1)
       | .nofuel => (.nofuel, st1))
    | (.ok false, st1) => pCall n st1
    | (.perr, st1) => (.perr, st1)
    | (.panic, st1) => (.panic, st1)
    | (.nofuel, st1) => (.nofuel, st1)

/-- Parser::call. -/
def pCall : Nat → PState → PRes Expr × PState
  | 0, st => (.nofuel, st)
  | n+1, st =>
    match pPrimary n st with
    | (.ok expr, st1) => pCallLoop n expr st1
    | (.perr, st1) => (.perr, st1)
    | (.panic, st1) => (.panic, st1)
    | (.nofuel, st1) => (.nofuel, st1)

/-- Iteration of Parser::call (repeated call suffixes). -/
def pCallLoop : Nat → Expr → PState → PRes Expr × PState
  | 0, _, st => (.nofuel, st)
  | n+1, expr, st =>
    match matchTokenTypes [.leftParen] st with
    | (.ok true, st1) =>
      (match pFinishCall n expr st1 with
       | (.ok expr1, st2) => pCallLoop n expr1 st2
       | (.perr, st2) => (.perr, st2)
       | (.panic, st2) => (.panic, st2)
       | (.nofuel, st2) => (.nofuel, st2))
    | (.ok false, st1) => (.ok expr, st1)
    | (.perr, st1) => (.perr, st1)
    | (.panic, st1) => (.panic, st1)
    | (.nofuel, st1) => (.nofuel, st1)

/-- Argument do-while loop of Parser::finish_call: past 8 arguments the
source reports (a non-fatal diagnostic whose Err(()) is discarded by
unwrap_err) and keeps parsing; each round parses one expression and
continues on a comma. -/
def pArgsLoop : Nat → List Expr → PState → PRes (List Expr) × PState
  | 0, _, st => (.nofuel, st)
  | n+1, args, st =>
    match (if args.length ≥ 8 then
             match ppeek st with
             | .ok t =>
                 ((PRes.ok (), { st with lox := reportParseError st.lox t "Cannot have more than 8 arguments." }) :
                    PRes Unit × PState)
             | .perr => (.perr, st)
             | .panic => (.panic, st)
             | .nofuel => (.nofuel, st)
           else ((PRes.ok (), st) : PRes Unit × PState)) with
    | (.ok _, st0) =>
      (match pExpression n st0 with
       | (.ok e, st1) =>
         (match matchTokenTypes [.comma] st1 with
          | (.ok true, st2) => pArgsLoop n (args ++ [e]) st2
          | (.ok false, st2) => (.ok (args ++ [e]), st2)
          | (.perr, st2) => (.perr, st2)
          | (.panic, st2) => (.panic, st2)
          | (.nofuel, st2) => (.nofuel, st2))
       | (.perr, st1) => (.perr, st1)
       | (.panic, st1) => (.panic, st1)
       | (.nofuel, st1) => (.nofuel, st1))
    | (.perr, st0) => (.perr, st0)
    | (.panic, st0) => (.panic, st0)
    | (.nofuel, st0) => (.nofuel, st0)

/-- Parser::finish_call. -/
def pFinishCall : Nat → Expr → PState → PRes Expr × PState
  | 0, _, st => (.nofuel, st)
  | n+1, callee, st =>
    match pcheck .rightParen st with
    | .ok noArgs =>
      (match (if noArgs then ((.ok [] : PRes (List Expr)), st) else pArgsLoop n [] st) with
       | (.ok args, st1) =>
         (match pconsume .rightParen ("Expect " ++ quoted ")" ++ " after arguments.") st1 with
          | (.ok paren, st2) => (.ok (.call callee paren args), st2)
          | (.perr, st2) => (.perr, st2)
          | (.panic, st2) => (.panic, st2)
          | (.nofuel, st2) => (.nofuel, st2))
       | (.perr, st1) => (.perr, st1)
       | (.panic, st1) => (.panic, st1)
       | (.nofuel, st1) => (.nofuel, st1))
    | .perr => (.perr, st)
    | .panic => (.panic, st)
    | .nofuel => (.nofuel, st)

/-- Parser::primary (the Number(12.0) and String payloads passed to
match_token_types are the source's dummies: matching is kind-level). -/
def pPrimary : Nat → PState → PRes Expr × PState
  | 0, st => (.nofuel, st)
  | n+1, st =>
    match matchTokenTypes [.false_] st with
    | (.ok true, st1) => (.ok (.literal (.bool false)), st1)
    | (.ok false, st1) =>
      (match matchTokenTypes [.true_] st1 with
       | (.ok true, st2) => (.ok (.literal (.bool true)), st2)
       | (.ok false, st2) =>
         (match matchTokenTypes [.nil] st2 with
          | (.ok true, st3) => (.ok (.literal .nil), st3)
          | (.ok false, st3) =>
            (match matchTokenTypes [.number (.num 12), .string ""] st3 with
             | (.ok true, st4) =>
               (match pprevious st4 with
                | .ok prev =>
                  (match prev.token_type with
                   | .number x => (.ok (.literal (.number x)), st4)
                   | .string s => (.ok (.literal (.string s)), st4)
                   | _ => (.panic, st4))
                | .perr => (.perr, st4)
                | .panic => (.panic, st4)
                | .nofuel => (.nofuel, st4))
             | (.ok false, st4) =>
               (match matchTokenTypes [.identifier] st4 with
                | (.ok true, st5) =>
                  (match pprevious st5 with
                   | .ok prev => (.ok (.variable prev), st5)
                   | .perr => (.perr, st5)
                   | .panic => (.panic, st5)
                   | .nofuel => (.nofuel, st5))
                | (.ok false, st5) =>
                  (match matchTokenTypes [.leftParen] st5 with
                   | (.ok true, st6) =>
                     (match pExpression n st6 with
                      | (.ok expr, st7) =>
                        (match pconsume .rightParen ("Expect " ++ quoted ")" ++ " after expression.") st7 with
                         | (.ok _, st8) => (.ok (.grouping expr), st8)
                         | (.perr, st8) => (.perr, st8)
                         | (.panic, st8) => (.panic, st8)
                         | (.nofuel, st8) => (.nofuel, st8))
                      | (.perr, st7) => (.perr, st7)
                      | (.panic, st7) => (.panic, st7)
                      | (.nofuel, st7) => (.nofuel, st7))
                   | (.ok false, st6) =>
                     (match ppeek st6 with
                      | .ok t => perrAt st6 t "Expect expression"
                      | .perr => (.perr, st6)
                      | .panic => (.panic, st6)
                      | .nofuel => (.nofuel, st6))
                   | (.perr, st6) => (.perr, st6)
                   | (.panic, st6) => (.panic, st6)
                   | (.nofuel, st6) => (.nofuel, st6))
                | (.perr, st5) => (.perr, st5)
                | (.panic, st5) => (.panic, st5)
                | (.nofuel, st5) => (.nofuel, st5))
             | (.perr, st4) => (.perr, st4)
             | (.panic, st4) => (.panic, st4)
             | (.nofuel, st4) => (.nofuel, st4))
          | (.perr, st3) => (.perr, st3)
          | (.panic, st3) => (.panic, st3)
          | (.nofuel, st3) => (.nofuel, st3))
       | (.perr, st2) => (.perr, st2)
       | (.panic, st2) => (.panic, st2)
       | (.nofuel, st2) => (.nofuel, st2))
    | (.perr, st1) => (.perr, st1)
    | (.panic, st1) => (.panic, st1)
    | (.nofuel, st1) => (.nofuel, st1)

end

/-- Declaration loop of Parser::parse. -/
def pParseLoop : Nat → List Stmt → PState → PRes (List Stmt) × PState
  | 0, _, st => (.nofuel, st)
  | n+1, acc, st =>
    match pIsAtEnd st with
    | .ok true => (.ok acc, st)
    | .ok false =>
      (match pDeclaration n st with
       | (.ok opt, st1) => pParseLoop n (acc ++ opt.toList) st1
       | (.perr, st1) => (.perr, st1)
       | (.panic, st1) => (.panic, st1)
       | (.nofuel, st1) => (.nofuel, st1))
    | .perr => (.perr, st)
    | .panic => (.panic, st)
    | .nofuel => (.nofuel, st)

/-- Parser::parse on a fresh Parser::new state. -/
def pparse (fuel : Nat) (tokens : List Token) (lox : LoxState) :
    PRes (List Stmt) × PState :=
  pParseLoop fuel [] ⟨tokens, 0, lox⟩

/-- Interpreter::new: an environment with one (global) scope holding the
clock built-in. -/
def initEnvironment : Environment :=
  ⟨[[("clock", Literal.callable .clock)]]⟩

/-- Fresh interpreter state as Interpreter::new creates it (clock value
arbitrary; zero here). -/
def initState : InterpState :=
  { environment := initEnvironment, output := [], clockNow := .num 0 }

/-! ## Specification-side definitions for the for-loop desugaring -/

/-- Desugared form of a for statement following the specification's
words: Block(init?, While(cond, Block(body, incrementExprStmt?))) where
the optional wrappers appear only when the clause is present. -/
def desugarFor (init : Option Stmt) (cond : Expr) (inc : Option Expr) (body : Stmt) : Stmt :=
  let inner :=
    match inc with
    | some i => Stmt.block [body, .expression i]
    | none => body
  let w := Stmt.whileStmt cond inner
  match init with
  | some s => Stmt.block [s, w]
  | none => w

/-- Specification-side counterpart of pForStatementRest: the same clause
parsing, but the returned statement is assembled by desugarFor (the
specification's stated shape) instead of the source's sequence of
rebindings. -/
def pForStatementRestSpec : Nat → Option Stmt → PState → PRes Stmt × PState
  | 0, _, st => (.nofuel, st)
  | n+1, initializer, st =>
    match pcheck .semicolon st with
    | .ok condAbsent =>
      (match (if condAbsent then (.ok (Expr.literal (.bool true)), st) else pExpression n st) with
       | (.ok cond, st1) =>
         (match pconsume .semicolon ("Expect " ++ quoted ";" ++ " after loop condition.") st1 with
          | (.ok _, st2) =>
            (match pcheck .rightParen st2 with
             | .ok incAbsent =>
               (match (if incAbsent then ((.ok none : PRes (Option Expr)), st2)
                       else match pExpression n st2 with
                            | (.ok e, st3) => (.ok (some e), st3)
                            | (.perr, st3) => (.perr, st3)
                            | (.panic, st3) => (.panic, st3)
                            | (.nofuel, st3) => (.nofuel, st3)) with
                | (.ok increment, st4) =>
                  (match pconsume .rightParen ("Expect " ++ quoted ")" ++ " after for clauses.") st4 with
                   | (.ok _, st5) =>
                     (match pStatement n st5 with
                      | (.ok body, st6) =>
                          (.ok (desugarFor initializer cond increment body), st6)
                      | (.perr, st6) => (.perr, st6)
                      | (.panic, st6) => (.panic, st6)
                      | (.nofuel, st6) => (.nofuel, st6))
                   | (.perr, st5) => (.perr, st5)
                   | (.panic, st5) => (.panic, st5)
                   | (.nofuel, st5) => (.nofuel, st5))
                | (.perr, st4) => (.perr, st4)
                | (.panic, st4) => (.panic, st4)
                | (.nofuel, st4) => (.nofuel, st4))
             | .perr => (.perr, st2)
             | .panic => (.panic, st2)
             | .nofuel => (.nofuel, st2))
          | (.perr, st2) => (.perr, st2)
          | (.panic, st2) => (.panic, st2)
          | (.nofuel, st2) => (.nofuel, st2))
       | (.perr, st1) => (.perr, st1)
       | (.panic, st1) => (.panic, st1)
       | (.nofuel, st1) => (.nofuel, st1))
    | .perr => (.perr, st)
    | .panic => (.panic, st)
    | .nofuel => (.nofuel, st)

/-- Specification-side counterpart of pForStatement, dispatching the
initializer clause into pForStatementRestSpec. -/
def pForStatementSpec : Nat → PState → PRes Stmt × PState
  | 0, st => (.nofuel, st)
  | n+1, st =>
    match pconsume .leftParen ("Expect " ++ quoted "(" ++ " after " ++ quoted "for" ++ ".") st with
    | (.ok _, st1) =>
      (match matchTokenTypes [.semicolon] st1 with
       | (.ok true, st2) => pForStatementRestSpec n none st2
       | (.ok false, st2) =>
         (match matchTokenTypes [.var] st2 with
          | (.ok true, st3) =>
            (match pVarDeclaration n st3 with
             | (.ok init, st4) => pForStatementRestSpec n (some init) st4
             | (.perr, st4) => (.perr, st4)
             | (.panic, st4) => (.panic, st4)
             | (.nofuel, st4) => (.nofuel, st4))
          | (.ok false, st3) =>
            (match pExpressionStatement n st3 with
             | (.ok init, st4) => pForStatementRestSpec n (some init) st4
             | (.perr, st4) => (.perr, st4)
             | (.panic, st4) => (.panic, st4)
             | (.nofuel, st4) => (.nofuel, st4))
          | (.perr, st3) => (.perr, st3)
          | (.panic, st3) => (.panic, st3)
          | (.nofuel, st3) => (.nofuel, st3))
       | (.perr, st2) => (.perr, st2)
       | (.panic, st2) => (.panic, st2)
       | (.nofuel, st2) => (.nofuel, st2))
    | (.perr, st1) => (.perr, st1)
    | (.panic, st1) => (.panic, st1)
    | (.nofuel, st1) => (.nofuel, st1)

/-! ## Concrete inputs used by the claim theorems -/

/-- Token stream of the program 1 = 2; (as the scanner of this
development produces it). -/
def c5tokens : List Token :=
  [⟨.number (.num 1), "1", 1⟩, ⟨.equal, "=", 1⟩,
   ⟨.number (.num 2), "2", 1⟩, ⟨.semicolon, ";", 1⟩, ⟨.eof, "", 1⟩]

/-- Token stream of the clause list (;;) print 1; as it reaches
pForStatement (the for keyword itself already consumed by
Parser::statement). -/
def c8tokens : List Token :=
  [⟨.leftParen, "(", 1⟩, ⟨.semicolon, ";", 1⟩, ⟨.semicolon, ";", 1⟩,
   ⟨.rightParen, ")", 1⟩, ⟨.print, "print", 1⟩,
   ⟨.number (.num 1), "1", 1⟩, ⟨.semicolon, ";", 1⟩, ⟨.eof, "", 1⟩]

/-- Lox source expression 0/0, which evaluates to the NaN double. -/
def nanExpr : Expr :=
  .binary (.literal (.number (.num 0))) ⟨.slash, "/", 1⟩ (.literal (.number (.num 0)))

/-! ## Helper lemmas -/

/-- Inserting a binding makes it visible under its own key. -/
theorem getVal_insert_self (s : Scope) (n : String) (v : Literal) :
    (s.insertKV n v).getVal n = some v := by
  induction s with
  | nil => simp [Scope.insertKV, Scope.getVal]
  | cons p rest ih =>
    obtain ⟨m, w⟩ := p
    by_cases h : m = n <;> simp [Scope.insertKV, Scope.getVal, h, ih]

/-- Inserting a binding leaves every other key unchanged. -/
theorem getVal_insert_ne (s : Scope) (n m : String) (v : Literal) (hne : m ≠ n) :
    (s.insertKV n v).getVal m = s.getVal m := by
  have hnm : n ≠ m := Ne.symm hne
  induction s with
  | nil => simp [Scope.insertKV, Scope.getVal, hnm]
  | cons p rest ih =>
    obtain ⟨k, w⟩ := p
    by_cases h : k = n
    · subst h
      simp [Scope.insertKV, Scope.getVal, hnm]
    · simp [Scope.insertKV, Scope.getVal, h, ih]

/-- The source's for-clause continuation equals the specification-side
one: the sequence of rebindings assembling the result is definitionally
the desugarFor shape. -/
theorem pForRest_spec_eq (n : Nat) (i : Option Stmt) (st : PState) :
    pForStatementRest n i st = pForStatementRestSpec n i st := by
  cases n with
  | zero => rfl
  | succ m => rfl

/-- The source's for-statement parser equals the specification-side
one. -/
theorem pFor_spec_eq (n : Nat) (st : PState) :
    pForStatement n st = pForStatementSpec n st := by
  cases n with
  | zero => rfl
  | succ m => simp only [pForStatement, pForStatementSpec, pForRest_spec_eq]

/-- A successful run of the for-clause continuation always returns a
statement of the desugarFor shape. -/
theorem pForRest_shape (n : Nat) (i : Option Stmt) (st : PState) (stmt : Stmt) (st' : PState)
    (h : pForStatementRest n i st = (.ok stmt, st')) :
    ∃ cond inc body, stmt = desugarFor i cond inc body := by
  rw [pForRest_spec_eq] at h
  cases n with
  | zero => simp [pForStatementRestSpec] at h
  | succ m =>
    simp only [pForStatementRestSpec] at h
    repeat' split at h
    all_goals injection h with h1 h2
    all_goals first
      | (injection h1 with h3; exact ⟨_, _, _, h3.symm⟩)
      | injection h1

/-! ## Claim theorems -/

/-- C1: the specification says the Bang unary returns the negation of
the operand's truthiness, so that evaluating !true is Bool(false) and
evaluating !nil is Bool(true).  The source's visit_unary returns the
truthiness itself with no negation: evaluating !true yields Bool(true)
and !nil yields Bool(false).  This theorem evaluates the interpreter
embedding at both failing inputs. -/
theorem c1_bang_unnegated_truthiness :
    evalExpr 5 (.unary ⟨.bang, "!", 1⟩ (.literal (.bool true))) initState
      = (.ok (.bool true), initState) ∧
    evalExpr 5 (.unary ⟨.bang, "!", 1⟩ (.literal .nil)) initState
      = (.ok (.bool false), initState) :=
  ⟨rfl, rfl⟩

/-- C2 counterexample: on operands Bool(true) and Number(1) the binary +
fails with the message "Operand must be a numbers" (produced by
cast_to_float), which is not the message "Operands must be two numbers
or two strings." that the claim states. -/
theorem c2_plus_error_message_counterexample :
    evalExpr 5 (.binary (.literal (.bool true)) ⟨.plus, "+", 1⟩
        (.literal (.number (.num 1)))) initState
      = (.err ⟨⟨.plus, "+", 1⟩, "Operand must be a numbers"⟩, initState) ∧
    "Operand must be a numbers" ≠ "Operands must be two numbers or two strings." :=
  ⟨rfl, by decide⟩

/-- C2 amended: for a binary + whose operands evaluate to l and r, two
strings concatenate and two numbers add (IEEE-754 on the modelled
doubles); in every other case evaluation fails with the runtime error
message "Operand must be a numbers" carried by the operator token. -/
theorem c2_plus_dispatch_amended (op : Token) (e1 e2 : Expr) (n : Nat)
    (s s1 s2 : InterpState) (l r : Literal)
    (hop : op.token_type = .plus)
    (h1 : evalExpr n e1 s = (.ok l, s1))
    (h2 : evalExpr n e2 s1 = (.ok r, s2)) :
    evalExpr (n+1) (.binary e1 op e2) s =
      (match l, r with
       | .string a, .string b => (.ok (.string (a ++ b)), s2)
       | .number a, .number b => (.ok (.number (a.fadd b)), s2)
       | _, _ => (.err ⟨op, "Operand must be a numbers"⟩, s2)) := by
  simp only [evalExpr, h1, h2, evalBinaryOp, hop]
  cases l <;> cases r <;> simp [castToFloat]

/-- C2 witness: the three arms of the amended plus dispatch at concrete
operands (two strings, two numbers, and a mixed pair). -/
theorem c2_plus_dispatch_amended_witness :
    evalExpr 2 (.binary (.literal (.string "foo")) ⟨.plus, "+", 1⟩
        (.literal (.string "bar"))) initState
      = (.ok (.string "foobar"), initState) ∧
    evalExpr 2 (.binary (.literal (.number (.num 1))) ⟨.plus, "+", 1⟩
        (.literal (.number (.num 2)))) initState
      = (.ok (.number (.num 3)), initState) ∧
    evalExpr 2 (.binary (.literal (.number (.num 1))) ⟨.plus, "+", 1⟩
        (.literal (.string "x"))) initState
      = (.err ⟨⟨.plus, "+", 1⟩, "Operand must be a numbers"⟩, initState) :=
  ⟨c2_plus_dispatch_amended ⟨.plus, "+", 1⟩ (.literal (.string "foo"))
     (.literal (.string "bar")) 1 initState initState initState
     (.string "foo") (.string "bar") rfl rfl rfl,
   by
     have h := c2_plus_dispatch_amended ⟨.plus, "+", 1⟩ (.literal (.number (.num 1)))
       (.literal (.number (.num 2))) 1 initState initState initState
       (.number (.num 1)) (.number (.num 2)) rfl rfl rfl
     norm_num [F64.fadd] at h
     exact h,
   c2_plus_dispatch_amended ⟨.plus, "+", 1⟩ (.literal (.number (.num 1)))
     (.literal (.string "x")) 1 initState initState initState
     (.number (.num 1)) (.string "x") rfl rfl rfl⟩

/-- C3: the specification requires scanning to terminate without
panicking on every input, with end-of-input acting as the terminator of
an unterminated block comment.  The source's block comment arm performs
two unconditional advances after its loop, and advance unwraps the char
at the new position, so the two-character source consisting of the
slash and the star panics (the loop exits immediately at end of input
and the following advance unwraps None).  This theorem evaluates the
scanner embedding at that failing input. -/
theorem c3_unterminated_block_comment_panics :
    scanTokens 50 "/*" initLox = .panic :=
  rfl

/-- C4: on an unterminated string the claim requires a report through
the diagnostic sink, making had_error true.  The source instead
printlns the line and "Unterminated string." directly and never calls
report, so had_error stays false; no token is emitted for the string
and scanning still ends in the single Eof token.  This theorem
evaluates the scanner embedding at the failing input, the source
consisting of one double quote followed by the letters a and b. -/
theorem c4_unterminated_string_not_reported :
    scanTokens 50 "\"ab" initLox =
      .ok ([⟨.eof, "", 1⟩],
           { had_error := false, had_runtime_error := false,
             printed := ["1 Unterminated string."] }) :=
  rfl

/-- C5 counterexample: parsing the program 1 = 2; reports "Invalid
assignment target." at the = token, but the enclosing statement is
discarded (the parse yields an empty statement list after panic-mode
synchronization), not kept as the claim states. -/
theorem c5_invalid_assignment_counterexample :
    pparse 30 c5tokens initLox =
      (.ok [],
       ⟨c5tokens, 4,
        { had_error := true, had_runtime_error := false,
          printed := ["[line 1 ] Error " ++ " at " ++ quoted "=" ++
            " : " ++ "Invalid assignment target."] }⟩) :=
  rfl

/-- C5 amended: when the left-hand side parsed before an = token is not
a Variable expression, Parser::assignment reports "Invalid assignment
target." at that = token and returns the recoverable parse failure
Err(()) (not the left-hand side), so the enclosing declaration is
discarded by panic-mode recovery. -/
theorem c5_invalid_assignment_amended (n : Nat) (st st1 st2 st3 : PState)
    (e v : Expr) (equals : Token)
    (h1 : pOr n st = (.ok e, st1))
    (h2 : matchTokenTypes [.equal] st1 = (.ok true, st2))
    (h3 : pprevious st2 = .ok equals)
    (h4 : pAssignment n st2 = (.ok v, st3))
    (h5 : ∀ nameTok, e ≠ .variable nameTok) :
    pAssignment (n+1) st =
      (.perr, { st3 with lox := reportParseError st3.lox equals "Invalid assignment target." }) := by
  simp only [pAssignment, h1, h2, h3, h4]
  cases e with
  | «variable» t => exact absurd rfl (h5 t)
  | binary a o b => rfl
  | call a p l => rfl
  | grouping g => rfl
  | literal l => rfl
  | logical a o b => rfl
  | unary o r => rfl
  | assign t r => rfl

/-- C5 witness: the amended theorem applied to the token stream of
1 = 2; at its = token. -/
theorem c5_invalid_assignment_amended_witness :
    pAssignment 21 ⟨c5tokens, 0, initLox⟩ =
      (.perr, { tokens := c5tokens, current := 3,
                lox := reportParseError initLox ⟨.equal, "=", 1⟩ "Invalid assignment target." }) :=
  c5_invalid_assignment_amended 20 ⟨c5tokens, 0, initLox⟩ ⟨c5tokens, 1, initLox⟩
    ⟨c5tokens, 2, initLox⟩ ⟨c5tokens, 3, initLox⟩
    (.literal (.number (.num 1))) (.literal (.number (.num 2))) ⟨.equal, "=", 1⟩
    rfl rfl rfl rfl (fun _ h => Expr.noConfusion h)

/-- C6: define writes only into the innermost scope, creating or
replacing the binding there and leaving every outer scope untouched;
assign replaces the binding in the innermost scope that already
contains the name, leaving all other scopes unchanged; when no scope
contains the name, assign fails with the undefined-variable runtime
error and produces no new environment. -/
theorem c6_environment_scope_correctness :
    (∀ (inner : Scope) (outer : List Scope) (nm : String) (v : Literal),
       ∃ inner2, Environment.define ⟨inner :: outer⟩ nm v = some ⟨inner2 :: outer⟩ ∧
         inner2.getVal nm = some v ∧
         ∀ m, m ≠ nm → inner2.getVal m = inner.getVal m) ∧
    (∀ (pre : List Scope) (s : Scope) (post : List Scope) (nameTok : Token) (v : Literal),
       (∀ t ∈ pre, t.containsKey nameTok.lexeme = false) →
       s.containsKey nameTok.lexeme = true →
       Environment.assign ⟨pre ++ s :: post⟩ nameTok v =
         .ok ⟨pre ++ (s.insertKV nameTok.lexeme v) :: post⟩) ∧
    (∀ (env : Environment) (nameTok : Token) (v : Literal),
       (∀ t ∈ env.scopes, t.containsKey nameTok.lexeme = false) →
       Environment.assign env nameTok v =
         .error ⟨nameTok, "Undefined variable " ++ quoted nameTok.lexeme ++ "."⟩) := by
  refine ⟨?_, ?_, ?_⟩
  · intro inner outer nm v
    exact ⟨inner.insertKV nm v, rfl, getVal_insert_self inner nm v,
      fun m hm => getVal_insert_ne inner nm m v hm⟩
  · intro pre s post nameTok v hpre hs
    have key : assignScopes (pre ++ s :: post) nameTok.lexeme v =
        some (pre ++ (s.insertKV nameTok.lexeme v) :: post) := by
      induction pre with
      | nil => simp [assignScopes, hs]
      | cons t rest ih =>
        have ht := hpre t (by simp)
        have ih2 := ih (fun u hu => hpre u (by simp [hu]))
        simp [assignScopes, ht, ih2]
    simp [Environment.assign, key]
  · intro env nameTok v h
    obtain ⟨scopes⟩ := env
    have key : assignScopes scopes nameTok.lexeme v = none := by
      induction scopes with
      | nil => simp [assignScopes]
      | cons t rest ih =>
        have ht := h t (by simp)
        have ih2 := ih (fun u hu => h u (by simp [hu]))
        simp [assignScopes, ht, ih2]
    simp [Environment.assign, key]

/-- C6 witness: the three clauses at concrete environments — a define
that shadows without touching the outer binding, an assign that writes
through an inner scope into the scope holding the name, and an assign
of an unbound name failing with the undefined-variable error. -/
theorem c6_environment_scope_correctness_witness :
    (∃ inner2, Environment.define ⟨[] :: [[("x", Literal.nil)]]⟩ "x" (.bool true)
         = some ⟨inner2 :: [[("x", Literal.nil)]]⟩ ∧
       inner2.getVal "x" = some (.bool true) ∧
       ∀ m, m ≠ "x" → inner2.getVal m = Scope.getVal [] m) ∧
    Environment.assign ⟨[[]] ++ [("x", Literal.nil)] :: []⟩ ⟨.identifier, "x", 1⟩ (.bool true)
      = .ok ⟨[[]] ++ (Scope.insertKV [("x", Literal.nil)] "x" (.bool true)) :: []⟩ ∧
    Environment.assign ⟨[[("y", Literal.nil)]]⟩ ⟨.identifier, "x", 1⟩ (.bool true)
      = .error ⟨⟨.identifier, "x", 1⟩, "Undefined variable " ++ quoted "x" ++ "."⟩ :=
  ⟨c6_environment_scope_correctness.1 [] [[("x", Literal.nil)]] "x" (.bool true),
   c6_environment_scope_correctness.2.1 [[]] [("x", Literal.nil)] [] ⟨.identifier, "x", 1⟩
     (.bool true) (by simp [Scope.containsKey]) (by simp [Scope.containsKey]),
   c6_environment_scope_correctness.2.2 ⟨[[("y", Literal.nil)]]⟩ ⟨.identifier, "x", 1⟩
     (.bool true) (by simp [Scope.containsKey])⟩

/-- C7: logical or with a truthy left operand returns that operand's
value without evaluating the right operand at all (the result does not
depend on it, so none of its effects or errors occur), and with a falsy
left operand the result is exactly the evaluation of the right operand;
symmetrically for and with a falsy (resp. truthy) left operand.  The
returned value is the deciding operand's own value, never a coerced
boolean. -/
theorem c7_logical_short_circuit (n : Nat) (op : Token) (e1 e2 : Expr)
    (s s1 : InterpState) (v : Literal)
    (h1 : evalExpr n e1 s = (.ok v, s1)) :
    (op.token_type = .or → isTruthy v = true →
        evalExpr (n+1) (.logical e1 op e2) s = (.ok v, s1)) ∧
    (op.token_type = .or → isTruthy v = false →
        evalExpr (n+1) (.logical e1 op e2) s = evalExpr n e2 s1) ∧
    (op.token_type = .and → isTruthy v = false →
        evalExpr (n+1) (.logical e1 op e2) s = (.ok v, s1)) ∧
    (op.token_type = .and → isTruthy v = true →
        evalExpr (n+1) (.logical e1 op e2) s = evalExpr n e2 s1) := by
  refine ⟨?_, ?_, ?_, ?_⟩ <;> intro hop ht <;> simp [evalExpr, h1, hop, ht]

/-- C7 witness: or with a truthy string on the left returns that string
unchanged even though the right operand is an unbound variable whose
evaluation would be a runtime error. -/
theorem c7_logical_short_circuit_witness :
    evalExpr 2 (.logical (.literal (.string "left")) ⟨.or, "or", 1⟩
        (.variable ⟨.identifier, "missing", 1⟩)) initState
      = (.ok (.string "left"), initState) :=
  (c7_logical_short_circuit 1 ⟨.or, "or", 1⟩ (.literal (.string "left"))
      (.variable ⟨.identifier, "missing", 1⟩) initState initState (.string "left") rfl).1
    rfl rfl

/-- C8: every successfully parsed for statement is returned in the
desugared shape Block(init?, While(cond, Block(body, incrementExprStmt?)))
— the statement produced is desugarFor of some clauses — and the
source's for-statement parser is extensionally equal to the
specification-side parser that assembles its result with desugarFor
(in particular an omitted condition becomes Literal(true) in both). -/
theorem c8_for_desugaring :
    (∀ (n : Nat) (st : PState) (stmt : Stmt) (st' : PState),
       pForStatement n st = (.ok stmt, st') →
       ∃ init cond inc body, stmt = desugarFor init cond inc body) ∧
    (∀ (n : Nat) (i : Option Stmt) (st : PState),
       pForStatementRest n i st = pForStatementRestSpec n i st) ∧
    (∀ (n : Nat) (st : PState), pForStatement n st = pForStatementSpec n st) := by
  refine ⟨?_, pForRest_spec_eq, pFor_spec_eq⟩
  intro n st stmt st' h
  cases n with
  | zero => simp [pForStatement] at h
  | succ m =>
    simp only [pForStatement] at h
    repeat' split at h
    all_goals first
      | (injection h with h1 h2; injection h1)
      | exact ⟨_, pForRest_shape _ _ _ _ _ h⟩

/-- C8 witness: the for statement with empty clauses and body print 1
parses successfully, and its result is of the desugarFor shape. -/
theorem c8_for_desugaring_witness :
    ∃ init cond inc body,
      Stmt.whileStmt (Expr.literal (.bool true))
          (Stmt.print (Expr.literal (.number (.num 1)))) =
        desugarFor init cond inc body :=
  c8_for_desugaring.1 30 ⟨c8tokens, 0, initLox⟩
    (Stmt.whileStmt (Expr.literal (.bool true))
      (Stmt.print (Expr.literal (.number (.num 1)))))
    ⟨c8tokens, 7, initLox⟩ rfl

/-- C9: printing an expression whose value is a Callable panics inside
stringify (the panic! arm), while printing any non-Callable value
stringifies successfully and appends one output line, never
panicking. -/
theorem c9_print_callable_panics (n : Nat) (e : Expr) (s s1 : InterpState) :
    (∀ c, evalExpr n e s = (.ok (.callable c), s1) →
        execStmt (n+1) (.print e) s = (.panic, s1)) ∧
    (∀ v, evalExpr n e s = (.ok v, s1) → (∀ c, v ≠ .callable c) →
        ∃ str, stringify v = some str ∧
          execStmt (n+1) (.print e) s = (.ok (), { s1 with output := s1.output ++ [str] })) := by
  constructor
  · intro c h
    simp [execStmt, h, stringify]
  · intro v h hv
    cases v with
    | callable c => exact absurd rfl (hv c)
    | string a => exact ⟨a, rfl, by simp [execStmt, h, stringify]⟩
    | number x => exact ⟨x.toDisplay, rfl, by simp [execStmt, h, stringify]⟩
    | bool b => exact ⟨if b then "true" else "false", rfl, by simp [execStmt, h, stringify]⟩
    | nil => exact ⟨"nil", rfl, by simp [execStmt, h, stringify]⟩

/-- C9 witness: print clock; panics (the global clock is the Callable
built-in), and print nil; prints the line nil without panicking. -/
theorem c9_print_callable_panics_witness :
    execStmt 2 (.print (.variable ⟨.identifier, "clock", 1⟩)) initState
      = (.panic, initState) ∧
    (∃ str, stringify .nil = some str ∧
       execStmt 2 (.print (.literal .nil)) initState
         = (.ok (), { initState with output := initState.output ++ [str] })) :=
  ⟨(c9_print_callable_panics 1 (.variable ⟨.identifier, "clock", 1⟩)
      initState initState).1 .clock rfl,
   (c9_print_callable_panics 1 (.literal .nil) initState initState).2 .nil rfl
     (fun _ h => Literal.noConfusion h)⟩

/-- C10: runtime equality is not reflexive — the NaN produced by 0/0
compares unequal to itself, so (0/0) == (0/0) evaluates to Bool(false)
— while every Nil, Bool, String, or non-NaN Number compares equal to
itself, and == and != on literal operands always produce a Bool and
never a runtime error. -/
theorem c10_equality_nan_not_reflexive :
    (evalExpr 5 (.binary nanExpr ⟨.equalEqual, "==", 1⟩ nanExpr) initState
        = (.ok (.bool false), initState)) ∧
    (∀ v : Literal,
       (v = .nil ∨ (∃ b, v = .bool b) ∨ (∃ str, v = .string str) ∨
          (∃ x, v = .number x ∧ x ≠ .nan)) →
       evalExpr 5 (.binary (.literal v) ⟨.equalEqual, "==", 1⟩ (.literal v)) initState
         = (.ok (.bool true), initState)) ∧
    (∀ v w : Literal, ∃ b,
       evalExpr 5 (.binary (.literal v) ⟨.equalEqual, "==", 1⟩ (.literal w)) initState
         = (.ok (.bool b), initState)) ∧
    (∀ v w : Literal, ∃ b,
       evalExpr 5 (.binary (.literal v) ⟨.bangEqual, "!=", 1⟩ (.literal w)) initState
         = (.ok (.bool b), initState)) := by
  refine ⟨rfl, ?_, ?_, ?_⟩
  · rintro v (rfl | ⟨b, rfl⟩ | ⟨str, rfl⟩ | ⟨x, rfl, hx⟩)
    · rfl
    · cases b <;> rfl
    · simp [evalExpr, evalBinaryOp, isEqual, Literal.rustEq]
    · cases x with
      | num q => simp [evalExpr, evalBinaryOp, isEqual, Literal.rustEq, F64.feq]
      | inf s => simp [evalExpr, evalBinaryOp, isEqual, Literal.rustEq, F64.feq]
      | nan => exact absurd rfl hx
  · intro v w
    exact ⟨isEqual v w, by simp [evalExpr, evalBinaryOp]⟩
  · intro v w
    exact ⟨!(isEqual v w), by simp [evalExpr, evalBinaryOp]⟩

/-- C10 witness: reflexivity at the concrete string value a. -/
theorem c10_equality_nan_not_reflexive_witness :
    evalExpr 5 (.binary (.literal (.string "a")) ⟨.equalEqual, "==", 1⟩
        (.literal (.string "a"))) initState
      = (.ok (.bool true), initState) :=
  c10_equality_nan_not_reflexive.2.1 (.string "a") (Or.inr (Or.inr (Or.inl ⟨"a", rfl⟩)))

end RLox
